import Mathlib

/-
Verification of the TGTG Home Assistant integration
(`custom_components/tgtg/sensor.py`, `custom_components/tgtg/const.py`)
against its natural-language specification.

The Python code manipulates JSON-like dictionaries with defensive
`try`/`except` blocks.  We shallowly embed the relevant fragment of Python:
values are `PyVal`, exceptions are `PyErr`, and fallible code returns
`Except PyErr α`.  The embedding is translated from the source; modelling
choices that deviate from CPython in corners the source never exercises are
recorded in doc comments.
-/

/-- The exception kinds that the embedded Python fragment can raise.
`sensor.py` catches `(KeyError, TypeError)`; `ValueError` (from `int()` on a
non-numeric string), `IndexError` (sequence subscripts) and `AttributeError`
(`.get` on a non-dict) are representable so that we can reason about which
errors escape the `except` clauses. -/
inductive PyErr where
  | keyError
  | typeError
  | valueError
  | indexError
  | attributeError
deriving DecidableEq, Repr

/-- JSON-like Python values as they occur in the TGTG payloads: `None`,
booleans, integers, strings, lists and (insertion-ordered) dicts.  Dict keys
are arbitrary values because the coordinator keys its data dict by whatever
`item["item"]["item_id"]` returns.  Floats only occur in the source as the
transient result of `int(...) / pow(10, int(...))`, which is immediately
converted by `str`; that composite is modelled by `divStr` below, so no float
constructor is needed. -/
inductive PyVal where
  | none
  | bool (b : Bool)
  | int (n : Int)
  | str (s : String)
  | list (xs : List PyVal)
  | dict (entries : List (PyVal × PyVal))

mutual
/-- Python `==` on embedded values.  `True == 1` and `False == 0` hold, as in
Python.  Dict equality is modelled entry-list-wise (order-sensitive); CPython
is order-insensitive, but the source only ever compares scalars, so the
difference is not exercised. -/
def pyEq : PyVal → PyVal → Bool
  | .none, .none => true
  | .bool a, .bool b => a == b
  | .bool a, .int b => (if a then (1 : Int) else 0) == b
  | .int a, .bool b => a == (if b then (1 : Int) else 0)
  | .int a, .int b => a == b
  | .str a, .str b => a == b
  | .list xs, .list ys => pyEqList xs ys
  | .dict xs, .dict ys => pyEqEntries xs ys
  | _, _ => false

/-- Elementwise `pyEq` on lists. -/
def pyEqList : List PyVal → List PyVal → Bool
  | [], [] => true
  | a :: arest, b :: brest => pyEq a b && pyEqList arest brest
  | _, _ => false

/-- Entrywise `pyEq` on dict entry lists. -/
def pyEqEntries : List (PyVal × PyVal) → List (PyVal × PyVal) → Bool
  | [], [] => true
  | (k1, v1) :: arest, (k2, v2) :: brest =>
      pyEq k1 k2 && pyEq v1 v2 && pyEqEntries arest brest
  | _, _ => false
end

/-- First value bound to a key `pyEq`-equal to `k` in a dict entry list. -/
def pyFind : List (PyVal × PyVal) → PyVal → Option PyVal
  | [], _ => Option.none
  | (k0, v0) :: rest, k => if pyEq k0 k then some v0 else pyFind rest k

/-- Python `d[k] = v` on a dict: replace the value of the first entry whose
key is `pyEq`-equal to `k` (keeping the originally inserted key object, as
CPython does), or append a new entry. -/
def dictSet : List (PyVal × PyVal) → PyVal → PyVal → List (PyVal × PyVal)
  | [], k, v => [(k, v)]
  | (k0, v0) :: rest, k, v =>
      if pyEq k0 k then (k0, v) :: rest else (k0, v0) :: dictSet rest k v

/-- Python sequence index resolution: negative indices count from the end;
out-of-range yields `none` (IndexError). -/
def pyIndex (len : Nat) (i : Int) : Option Nat :=
  let j := if i < 0 then i + len else i
  if 0 ≤ j ∧ j < len then some j.toNat else Option.none

/-- Python subscript `v[k]`: dict lookup (unhashable key → `TypeError`,
missing key → `KeyError`), list/str indexing (non-integer index →
`TypeError`, out of range → `IndexError`), and `TypeError` on everything
else. -/
def pyGetItem : PyVal → PyVal → Except PyErr PyVal
  | .dict es, k =>
      match k with
      | .list _ => .error .typeError
      | .dict _ => .error .typeError
      | _ =>
          match pyFind es k with
          | some v => .ok v
          | Option.none => .error .keyError
  | .list xs, k =>
      match k with
      | .int i =>
          match pyIndex xs.length i with
          | some j => .ok (xs.getD j .none)
          | Option.none => .error .indexError
      | .bool b =>
          match pyIndex xs.length (if b then 1 else 0) with
          | some j => .ok (xs.getD j .none)
          | Option.none => .error .indexError
      | _ => .error .typeError
  | .str s, k =>
      match k with
      | .int i =>
          match pyIndex s.length i with
          | some j => .ok (.str (String.singleton (s.data.getD j (Char.ofNat 32))))
          | Option.none => .error .indexError
      | .bool b =>
          match pyIndex s.length (if b then 1 else 0) with
          | some j => .ok (.str (String.singleton (s.data.getD j (Char.ofNat 32))))
          | Option.none => .error .indexError
      | _ => .error .typeError
  | _, _ => .error .typeError

/-- Substring test used by Python `needle in haystack` on strings.  The empty
needle is contained in every string; the source only uses nonempty literal
needles. -/
def strContains (hay needle : String) : Bool :=
  if needle = "" then true else decide ((hay.splitOn needle).length ≥ 2)

/-- Python `needle in container` where `needle` is a string literal (the only
shape occurring in the source): dict key test, list membership, substring
test on strings, `TypeError` otherwise. -/
def pyContains (needle : String) : PyVal → Except PyErr Bool
  | .dict es => .ok (es.any fun e => pyEq e.1 (.str needle))
  | .list xs => .ok (xs.any fun x => pyEq x (.str needle))
  | .str s => .ok (strContains s needle)
  | _ => .error .typeError

/-- Python iteration `for x in v`: lists yield elements, strings yield
one-character strings, dicts yield their keys in insertion order, everything
else raises `TypeError`. -/
def pyIter : PyVal → Except PyErr (List PyVal)
  | .list xs => .ok xs
  | .str s => .ok (s.data.map fun c => .str (String.singleton c))
  | .dict es => .ok (es.map Prod.fst)
  | _ => .error .typeError

/-- Strict decimal-integer parse backing `int()` on strings: surrounding
whitespace and an optional sign are allowed, then at least one digit.
(CPython additionally allows underscores between digits; not modelled, not
exercised by the source data.) -/
def parseIntStr (s : String) : Option Int :=
  let t := ((s.data.dropWhile Char.isWhitespace).reverse.dropWhile
      Char.isWhitespace).reverse
  let signed : Int × List Char :=
    match t with
    | c :: rest =>
        if c == '-' then (-1, rest) else if c == '+' then (1, rest) else (1, t)
    | [] => (1, t)
  let digits := signed.2
  if digits.length > 0 ∧ digits.all Char.isDigit then
    some (signed.1 *
      (digits.foldl (fun acc c => acc * 10 + (c.toNat - 48)) (0 : Nat) : Nat))
  else Option.none

/-- Python `int(v)`: identity on ints, `True ↦ 1 / False ↦ 0`, strict parse
of strings (`ValueError` on failure), `TypeError` on `None`, lists and
dicts. -/
def pyInt : PyVal → Except PyErr Int
  | .int n => .ok n
  | .bool b => .ok (if b then 1 else 0)
  | .str s =>
      match parseIntStr s with
      | some n => .ok n
      | Option.none => .error .valueError
  | _ => .error .typeError

/-- Python `a + v` where `a` is an int accumulator (the
`total_quantity_ordered += order["quantity"]` statement): ints and bools
add, everything else raises `TypeError`. -/
def pyAddInt (a : Int) : PyVal → Except PyErr Int
  | .int n => .ok (a + n)
  | .bool b => .ok (a + if b then 1 else 0)
  | _ => .error .typeError

/-- A single-quote string, written via its code point to keep source quoting
simple. -/
def squote : String := String.singleton (Char.ofNat 39)

mutual
/-- Python `repr` of embedded values.  String reprs are approximated as
always single-quoted without escaping; the source only ever applies `str` to
payload identifiers, so the approximation is not exercised on strings
containing quotes. -/
def pyRepr : PyVal → String
  | .none => "None"
  | .bool b => if b then "True" else "False"
  | .int n => toString n
  | .str s => squote ++ s ++ squote
  | .list xs => "[" ++ pyReprList xs ++ "]"
  | .dict es => "\x7b" ++ pyReprEntries es ++ "\x7d"

/-- Comma-separated reprs of list elements. -/
def pyReprList : List PyVal → String
  | [] => ""
  | [x] => pyRepr x
  | x :: rest => pyRepr x ++ ", " ++ pyReprList rest

/-- Comma-separated `key: value` reprs of dict entries. -/
def pyReprEntries : List (PyVal × PyVal) → String
  | [] => ""
  | [(k, v)] => pyRepr k ++ ": " ++ pyRepr v
  | (k, v) :: rest => pyRepr k ++ ": " ++ pyRepr v ++ ", " ++ pyReprEntries rest
end

/-- Python `str(v)`: identity on strings, `repr`-like otherwise. -/
def pyStr : PyVal → String
  | .str s => s
  | v => pyRepr v

/-- Drop trailing zero characters. -/
def stripZeroSuffix (s : String) : String :=
  String.mk ((s.data.reverse.dropWhile (fun c => c == '0')).reverse)

/-- The composite `str(int(mu) / pow(10, int(d)))` from the price formatting
in `extra_state_attributes`, modelled as the exact decimal representation of
the rational `mu / 10^d` with trailing zeros stripped and at least one
fractional digit kept (so `250 / 10^0` renders as `"250.0"`, as CPython
renders the float `250.0`).  CPython computes this through IEEE-754 doubles
with shortest round-trip repr, which agrees with the exact decimal for all
quotients with at most 15 significant digits and magnitude below 10^16 —
i.e. for all realistic prices. -/
def divStr (m : Int) (d : Int) : String :=
  if d < 0 then
    toString (m * (10 : Int) ^ (-d).toNat) ++ ".0"
  else
    let n : Nat := 10 ^ d.toNat
    let a : Nat := m.natAbs
    let ip : Nat := a / n
    let frDigits : String :=
      let s := toString (a % n)
      String.mk (List.replicate (d.toNat - s.length) '0') ++ s
    let fr := stripZeroSuffix frDigits
    (if m < 0 then "-" else "") ++ toString ip ++ "." ++ (if fr = "" then "0" else fr)

/-- The dict method call `v.get(k, dflt)`: on a dict, the bound value or the
default; on anything else Python raises `AttributeError` (no `get`
attribute). -/
def pyDictGetE (v : PyVal) (k : String) (dflt : PyVal) : Except PyErr PyVal :=
  match v with
  | .dict es => .ok ((pyFind es (.str k)).getD dflt)
  | _ => .error .attributeError

example : divStr 250 2 = "2.5" := by decide
example : divStr 250 0 = "250.0" := by decide
example : divStr 5 3 = "0.005" := by decide
example : divStr (-250) 2 = "-2.5" := by decide
example : pyInt (.str " 42 ") = .ok 42 := rfl
example : pyInt (.str "abc") = .error .valueError := rfl

/-! Constants from `custom_components/tgtg/const.py`. -/

def DOMAIN : String := "tgtg"
def ATTR_ITEM_ID : String := "item_id"
def ATTR_ITEM_URL : String := "item_url"
def ATTR_PRICE : String := "item_price"
def ATTR_VALUE : String := "original_value"
def ATTR_PICKUP_START : String := "pickup_start"
def ATTR_PICKUP_END : String := "pickup_end"
def ATTR_SOLDOUT_TIMESTAMP : String := "soldout_timestamp"
def ATTR_ORDERS_PLACED : String := "orders_placed"
def ATTR_TOTAL_QUANTITY_ORDERED : String := "total_quantity_ordered"
def ATTR_PICKUP_WINDOW_CHANGED : String := "pickup_window_changed"
def ATTR_CANCEL_UNTIL : String := "cancel_until"
def ATTR_LOGO_URL : String := "logo_url"
def ATTR_COVER_URL : String := "cover_url"
def DEFAULT_UPDATE_INTERVAL : Nat := 30

/-- Python `a + v` where `a` is a string (the `str(...) + " " + code`
concatenations): concatenates when `v` is a string, raises `TypeError`
otherwise. -/
def pyAddStr (a : String) : PyVal → Except PyErr String
  | .str s => .ok (a ++ s)
  | _ => .error .typeError

/-! `TGTGSensor` (sensor.py lines 165-265).  A sensor instance is the pair
of its `item_id` and the `_store_name` captured at construction. -/

/-- `TGTGSensor.__init__` (lines 168-172): stores `item_id` and reads
`self.coordinator.data[item_id]["display_name"]` with no exception
handling. -/
def TGTGSensor_init (cdata itemId : PyVal) : Except PyErr (PyVal × PyVal) := do
  let entry ← pyGetItem cdata itemId
  let name ← pyGetItem entry (.str "display_name")
  pure (itemId, name)

/-- `TGTGSensor.native_value` (lines 194-200):
`self.coordinator.data[self.item_id]["items_available"]` guarded by
`except (KeyError, TypeError): return None`.  The result is
`ok (some v)` for a normal read, `ok none` for the caught `None` return, and
`error e` for an exception escaping the property. -/
def native_value (cdata itemId : PyVal) : Except PyErr (Option PyVal) :=
  match pyGetItem cdata itemId >>= fun v => pyGetItem v (.str "items_available") with
  | .ok v => .ok (some v)
  | .error .keyError => .ok Option.none
  | .error .typeError => .ok Option.none
  | .error e => .error e

/-- Lines 211-215: the `"item_id" in tgtg_answer["item"]` block, writing
`item_id` and `item_url`. -/
def idPart (item : PyVal) (d : List (PyVal × PyVal)) :
    Except PyErr (List (PyVal × PyVal)) := do
  let has ← pyContains "item_id" item
  if has then
    let iid ← pyGetItem item (.str "item_id")
    pure (dictSet (dictSet d (.str ATTR_ITEM_ID) iid) (.str ATTR_ITEM_URL)
      (.str ("https://share.toogoodtogo.com/item/" ++ pyStr iid)))
  else pure d

/-- Lines 216-224: the `"item_price" in tgtg_answer["item"]` block, writing
the formatted price string. -/
def pricePart (item : PyVal) (d : List (PyVal × PyVal)) :
    Except PyErr (List (PyVal × PyVal)) := do
  let has ← pyContains "item_price" item
  if has then
    let p ← pyGetItem item (.str "item_price")
    let mu ← pyInt (← pyGetItem p (.str "minor_units"))
    let de ← pyInt (← pyGetItem p (.str "decimals"))
    let s ← pyAddStr (divStr mu de ++ " ") (← pyGetItem p (.str "code"))
    pure (dictSet d (.str ATTR_PRICE) (.str s))
  else pure d

/-- Lines 225-233: the `"item_value"` block, same transform as the price. -/
def valuePart (item : PyVal) (d : List (PyVal × PyVal)) :
    Except PyErr (List (PyVal × PyVal)) := do
  let has ← pyContains "item_value" item
  if has then
    let p ← pyGetItem item (.str "item_value")
    let mu ← pyInt (← pyGetItem p (.str "minor_units"))
    let de ← pyInt (← pyGetItem p (.str "decimals"))
    let s ← pyAddStr (divStr mu de ++ " ") (← pyGetItem p (.str "code"))
    pure (dictSet d (.str ATTR_VALUE) (.str s))
  else pure d

/-- Lines 235-236: the `"logo_picture"` block (the inner `current_url`
access is unguarded in the source). -/
def logoPart (item : PyVal) (d : List (PyVal × PyVal)) :
    Except PyErr (List (PyVal × PyVal)) := do
  let has ← pyContains "logo_picture" item
  if has then
    let lp ← pyGetItem item (.str "logo_picture")
    let url ← pyGetItem lp (.str "current_url")
    pure (dictSet d (.str ATTR_LOGO_URL) url)
  else pure d

/-- Lines 237-238: the `"cover_picture"` block. -/
def coverPart (item : PyVal) (d : List (PyVal × PyVal)) :
    Except PyErr (List (PyVal × PyVal)) := do
  let has ← pyContains "cover_picture" item
  if has then
    let cp ← pyGetItem item (.str "cover_picture")
    let url ← pyGetItem cp (.str "current_url")
    pure (dictSet d (.str ATTR_COVER_URL) url)
  else pure d

/-- Lines 210-238: the whole `if "item" in tgtg_answer:` block.  The source
re-evaluates the pure subscript `tgtg_answer["item"]` in each sub-block; it
is bound once here, at the point of its first evaluation (the guard of the
`item_id` sub-block), which raises the same `TypeError` in the same
situations. -/
def itemAttrs (tgtgAnswer : PyVal) (d : List (PyVal × PyVal)) :
    Except PyErr (List (PyVal × PyVal)) := do
  let has ← pyContains "item" tgtgAnswer
  if has then
    let item ← pyGetItem tgtgAnswer (.str "item")
    let d ← idPart item d
    let d ← pricePart item d
    let d ← valuePart item d
    let d ← logoPart item d
    coverPart item d
  else pure d

/-- Lines 241-242: the `"start" in tgtg_answer["pickup_interval"]` write. -/
def startPart (itv : PyVal) (d : List (PyVal × PyVal)) :
    Except PyErr (List (PyVal × PyVal)) := do
  let hs ← pyContains "start" itv
  if hs then
    let v ← pyGetItem itv (.str "start")
    pure (dictSet d (.str ATTR_PICKUP_START) v)
  else pure d

/-- Lines 243-244: the `"end"` write. -/
def endPart (itv : PyVal) (d : List (PyVal × PyVal)) :
    Except PyErr (List (PyVal × PyVal)) := do
  let he ← pyContains "end" itv
  if he then
    let v ← pyGetItem itv (.str "end")
    pure (dictSet d (.str ATTR_PICKUP_END) v)
  else pure d

/-- Lines 240-244: the `"pickup_interval" in tgtg_answer` block.  As with
`itemAttrs`, the pure subscript `tgtg_answer["pickup_interval"]` is bound
once at its first evaluation point. -/
def pickupIntervalPart (tgtgAnswer : PyVal) (d : List (PyVal × PyVal)) :
    Except PyErr (List (PyVal × PyVal)) := do
  let has ← pyContains "pickup_interval" tgtgAnswer
  if has then
    let itv ← pyGetItem tgtgAnswer (.str "pickup_interval")
    let d ← startPart itv d
    endPart itv d
  else pure d

/-- Lines 245-246: the `sold_out_at` write. -/
def soldOutPart (tgtgAnswer : PyVal) (d : List (PyVal × PyVal)) :
    Except PyErr (List (PyVal × PyVal)) := do
  let hso ← pyContains "sold_out_at" tgtgAnswer
  if hso then
    let v ← pyGetItem tgtgAnswer (.str "sold_out_at")
    pure (dictSet d (.str ATTR_SOLDOUT_TIMESTAMP) v)
  else pure d

/-- Lines 240-246: the `pickup_interval` and `sold_out_at` blocks. -/
def pickupAttrs (tgtgAnswer : PyVal) (d : List (PyVal × PyVal)) :
    Except PyErr (List (PyVal × PyVal)) := do
  let d ← pickupIntervalPart tgtgAnswer d
  soldOutPart tgtgAnswer d

/-- Lines 254-255: the conditional `total_quantity_ordered +=
order["quantity"]` of one matching order. -/
def quantityStep (o : PyVal) (total : Int) : Except PyErr Int := do
  let hasQ ← pyContains "quantity" o
  if hasQ then pyAddInt total (← pyGetItem o (.str "quantity"))
  else pure total

/-- Lines 256-257: the conditional `pickup_window_changed` write of one
matching order. -/
def pwcStep (o : PyVal) (d : List (PyVal × PyVal)) :
    Except PyErr (List (PyVal × PyVal)) := do
  let hasW ← pyContains "pickup_window_changed" o
  if hasW then
    let v ← pyGetItem o (.str "pickup_window_changed")
    pure (dictSet d (.str ATTR_PICKUP_WINDOW_CHANGED) v)
  else pure d

/-- Lines 258-259: the conditional `cancel_until` write of one matching
order. -/
def cuStep (o : PyVal) (d : List (PyVal × PyVal)) :
    Except PyErr (List (PyVal × PyVal)) := do
  let hasC ← pyContains "cancel_until" o
  if hasC then
    let v ← pyGetItem o (.str "cancel_until")
    pure (dictSet d (.str ATTR_CANCEL_UNTIL) v)
  else pure d

/-- Lines 250-259: the `for order in tgtg_orders:` loop, threading the
attribute dict and the `orders_placed` / `total_quantity_ordered`
accumulators.  `sid` is `str(self.item_id)`, computed once since `pyStr` is
pure. -/
def ordersFold (sid : String) :
    List PyVal → List (PyVal × PyVal) → Int → Int →
    Except PyErr (List (PyVal × PyVal) × Int × Int)
  | [], d, placed, total => .ok (d, placed, total)
  | o :: rest, d, placed, total => do
      let hasId ← pyContains "item_id" o
      if hasId then
        let oid ← pyGetItem o (.str "item_id")
        if pyEq oid (.str sid) then
          let total ← quantityStep o total
          let d ← pwcStep o d
          let d ← cuStep o d
          ordersFold sid rest d (placed + 1) total
        else
          ordersFold sid rest d placed total
      else
        ordersFold sid rest d placed total

/-- `TGTGSensor.extra_state_attributes`, lines 205-263: the body of the
`try` block, returning the attribute dict entries or the first exception
raised. -/
def extraAttrsRaw (cdata itemId : PyVal) :
    Except PyErr (List (PyVal × PyVal)) := do
  let tgtgAnswer ← pyGetItem cdata itemId
  let tgtgOrders ← pyDictGetE cdata "orders" (.list [])
  let d ← itemAttrs tgtgAnswer []
  let d ← pickupAttrs tgtgAnswer d
  let os ← pyIter tgtgOrders
  let res ← ordersFold (pyStr itemId) os d 0 0
  let d := dictSet res.1 (.str ATTR_ORDERS_PLACED) (.int res.2.1)
  let d := if res.2.2 > 0 then
      dictSet d (.str ATTR_TOTAL_QUANTITY_ORDERED) (.int res.2.2)
    else d
  pure d

/-- `TGTGSensor.extra_state_attributes`, lines 202-265: the `try` body
wrapped in `except (KeyError, TypeError): return {}`.  Any other exception
escapes the property. -/
def extra_state_attributes (cdata itemId : PyVal) : Except PyErr PyVal :=
  match extraAttrsRaw cdata itemId with
  | .ok d => .ok (.dict d)
  | .error .keyError => .ok (.dict [])
  | .error .typeError => .ok (.dict [])
  | .error e => .error e

/-! `TGTGDataUpdateCoordinator._async_update_data` (sensor.py lines
131-162).  The external client is a pair of response maps:
`get_item : String → Except String PyVal` and
`get_favorites : Except String (List PyVal)`, an `error` meaning the
blocking call raised an exception with the given message. -/

/-- An exception inside the `try` of `_async_update_data`: either a client
call raised (carrying its message) or the favorites post-processing
(`item["item"]["item_id"]`) raised an embedded Python exception. -/
inductive UpdateErr where
  | client (msg : String)
  | py (e : PyErr)

/-- Rendering of an exception as interpolated into the `UpdateFailed`
f-string.  Client-library errors carry their message verbatim; for the
`KeyError`/`TypeError` raised while extracting `item["item"]["item_id"]`
from a favorites payload, CPython would render the offending key or a type
message — approximated by the exception class name, on which no claim
depends. -/
def renderUpdateErr : UpdateErr → String
  | .client m => m
  | .py .keyError => "KeyError"
  | .py .typeError => "TypeError"
  | .py .valueError => "ValueError"
  | .py .indexError => "IndexError"
  | .py .attributeError => "AttributeError"

/-- Lines 145-149: `for item_id in self.items: data[item_id] =
get_item(item_id)`, aborting at the first raising call. -/
def fetchItems (get_item : String → Except String PyVal) :
    List String → List (PyVal × PyVal) → Except UpdateErr (List (PyVal × PyVal))
  | [], d => .ok d
  | id :: rest, d =>
      match get_item id with
      | .error m => .error (.client m)
      | .ok payload => fetchItems get_item rest (dictSet d (.str id) payload)

/-- The key expression `item["item"]["item_id"]` of line 157. -/
def favItemId (fav : PyVal) : Except PyErr PyVal :=
  pyGetItem fav (.str "item") >>= fun it => pyGetItem it (.str "item_id")

/-- Lines 156-158: `for item in favorites: data[item["item"]["item_id"]] =
item`.  Using an unhashable value (list/dict) as a dict key raises
`TypeError` in CPython. -/
def addFavs : List PyVal → List (PyVal × PyVal) → Except UpdateErr (List (PyVal × PyVal))
  | [], d => .ok d
  | fav :: rest, d =>
      match favItemId fav with
      | .error e => .error (.py e)
      | .ok iid =>
          match iid with
          | .list _ => .error (.py .typeError)
          | .dict _ => .error (.py .typeError)
          | _ => addFavs rest (dictSet d iid fav)

/-- The `try` body of `_async_update_data` (lines 133-160): start from
`{"orders": ""}` (lines 138-139), then either fetch the configured items
(`self.items != [""]`) or the favorites. -/
def updateDataCore (get_item : String → Except String PyVal)
    (get_favorites : Except String (List PyVal)) (items : List String) :
    Except UpdateErr PyVal :=
  let d0 : List (PyVal × PyVal) := [(.str "orders", .str "")]
  if items ≠ [""] then
    match fetchItems get_item items d0 with
    | .error e => .error e
    | .ok d => .ok (.dict d)
  else
    match get_favorites with
    | .error m => .error (.client m)
    | .ok favs =>
        match addFavs favs d0 with
        | .error e => .error e
        | .ok d => .ok (.dict d)

/-- `_async_update_data` (lines 131-162): any exception from the body is
re-raised as `UpdateFailed(f"Error communicating with TGTG API: {err}")`. -/
def update_data (get_item : String → Except String PyVal)
    (get_favorites : Except String (List PyVal)) (items : List String) :
    Except String PyVal :=
  match updateDataCore get_item get_favorites items with
  | .ok d => .ok d
  | .error e => .error ("Error communicating with TGTG API: " ++ renderUpdateErr e)

/-- Modelled from the spec: the host `DataUpdateCoordinator` (imported from
`homeassistant.helpers.update_coordinator`, not part of this repository)
publishes the returned snapshot on success and, per the spec's error-handling
section, "the previous snapshot (if any) remains the last-known-good value
exposed to consumers" when `_async_update_data` raises `UpdateFailed`. -/
def refreshData (prev : Option PyVal) (r : Except String PyVal) : Option PyVal :=
  match r with
  | .ok d => some d
  | .error _ => prev

/-- A favorites payload with `item.item_id = "A"` and `items_available = 1`,
used to exhibit duplicate-identifier behaviour. -/
def c7fav1 : PyVal :=
  PyVal.dict [(PyVal.str "item", PyVal.dict [(PyVal.str "item_id", PyVal.str "A")]),
    (PyVal.str "items_available", PyVal.int 1)]

/-- A second favorites payload with the same `item.item_id = "A"` but
`items_available = 2`. -/
def c7fav2 : PyVal :=
  PyVal.dict [(PyVal.str "item", PyVal.dict [(PyVal.str "item_id", PyVal.str "A")]),
    (PyVal.str "items_available", PyVal.int 2)]

/-- Specification-side predicate, following the claim's words: an order
record whose `item_id` string-equals the sensor's identifier. -/
def orderMatches (sid : String) (o : PyVal) : Bool :=
  match o with
  | .dict fs =>
      match pyFind fs (.str "item_id") with
      | some v => pyEq v (.str sid)
      | Option.none => false
  | _ => false

/-- Specification-side count of the orders matching the sensor's
identifier. -/
def ordersPlacedSpec (sid : String) (os : List PyVal) : Int :=
  ((os.filter fun o => orderMatches sid o).length : Int)

/-- Specification-side quantity carried by one order record (0 when the
field is absent). -/
def orderQty (o : PyVal) : Int :=
  match o with
  | .dict fs =>
      match pyFind fs (.str "quantity") with
      | some (.int n) => n
      | _ => 0
  | _ => 0

/-- Specification-side sum of the `quantity` fields over matching orders. -/
def totalQtySpec (sid : String) (os : List PyVal) : Int :=
  ((os.filter fun o => orderMatches sid o).map orderQty).sum

/-- The errors a computation may raise are limited to `KeyError`,
`TypeError` and `ValueError` — the kinds that can arise inside
`extra_state_attributes` (no sequence indexing with integer keys and no
attribute access on non-dicts occur while the snapshot is a dict). -/
def KTVRes {α : Type} (r : Except PyErr α) : Prop :=
  ∀ e, r = Except.error e →
    e = PyErr.keyError ∨ e = PyErr.typeError ∨ e = PyErr.valueError

/-! Helper lemmas about the embedded primitives. -/

@[simp] theorem bindE_ok {α β} (a : α) (f : α → Except PyErr β) :
    (Except.ok a >>= f) = f a := rfl

@[simp] theorem bindE_err {α β} (e : PyErr) (f : α → Except PyErr β) :
    ((Except.error e : Except PyErr α) >>= f) = Except.error e := rfl

@[simp] theorem pureE {α} (a : α) : (pure a : Except PyErr α) = Except.ok a := rfl

/-- Subscripting a dict can only raise `KeyError` (missing key) or
`TypeError` (unhashable key). -/
theorem pyGetItem_dict_err (es : List (PyVal × PyVal)) (k : PyVal) (e : PyErr)
    (h : pyGetItem (PyVal.dict es) k = Except.error e) :
    e = PyErr.keyError ∨ e = PyErr.typeError := by
  cases k <;> simp only [pyGetItem] at h
  case list => exact Or.inr (Except.error.inj h).symm
  case dict => exact Or.inr (Except.error.inj h).symm
  all_goals
    cases hf : pyFind es _ <;> rw [hf] at h <;>
      first
        | exact Or.inl (Except.error.inj h).symm
        | exact absurd h (by simp)

/-- Subscripting any value with a string key can only raise `KeyError` or
`TypeError` (never `IndexError`, which needs an integer index). -/
theorem pyGetItem_strkey_err (v : PyVal) (s : String) (e : PyErr)
    (h : pyGetItem v (PyVal.str s) = Except.error e) :
    e = PyErr.keyError ∨ e = PyErr.typeError := by
  cases v
  case dict es => exact pyGetItem_dict_err es _ e h
  all_goals
    simp only [pyGetItem] at h
    exact Or.inr (Except.error.inj h).symm

/-- The `in` test can only raise `TypeError`. -/
theorem pyContains_err (n : String) (v : PyVal) (e : PyErr)
    (h : pyContains n v = Except.error e) : e = PyErr.typeError := by
  cases v <;> simp only [pyContains] at h <;>
    first
      | exact (Except.error.inj h).symm
      | exact absurd h (by simp)

/-- `int()` can only raise `TypeError` or `ValueError`. -/
theorem pyInt_err (v : PyVal) (e : PyErr) (h : pyInt v = Except.error e) :
    e = PyErr.typeError ∨ e = PyErr.valueError := by
  cases v <;> simp only [pyInt] at h
  case str s =>
    cases hp : parseIntStr s <;> rw [hp] at h
    · exact Or.inr (Except.error.inj h).symm
    · exact absurd h (by simp)
  all_goals
    first
      | exact Or.inl (Except.error.inj h).symm
      | exact absurd h (by simp)

/-- Integer `+=` can only raise `TypeError`. -/
theorem pyAddInt_err (a : Int) (v : PyVal) (e : PyErr)
    (h : pyAddInt a v = Except.error e) : e = PyErr.typeError := by
  cases v <;> simp only [pyAddInt] at h <;>
    first
      | exact (Except.error.inj h).symm
      | exact absurd h (by simp)

/-- String `+` can only raise `TypeError`. -/
theorem pyAddStr_err (a : String) (v : PyVal) (e : PyErr)
    (h : pyAddStr a v = Except.error e) : e = PyErr.typeError := by
  cases v <;> simp only [pyAddStr] at h <;>
    first
      | exact (Except.error.inj h).symm
      | exact absurd h (by simp)

/-- Iteration can only raise `TypeError`. -/
theorem pyIter_err (v : PyVal) (e : PyErr) (h : pyIter v = Except.error e) :
    e = PyErr.typeError := by
  cases v <;> simp only [pyIter] at h <;>
    first
      | exact (Except.error.inj h).symm
      | exact absurd h (by simp)

/-- `.get` on a dict never raises. -/
theorem pyDictGetE_dict (es : List (PyVal × PyVal)) (k : String) (dflt : PyVal) :
    pyDictGetE (PyVal.dict es) k dflt = Except.ok ((pyFind es (PyVal.str k)).getD dflt) :=
  rfl

/-- C1: the claim states that constructing a sensor for a listing whose
snapshot entry lacks `display_name` does not raise.  Counterexample: a
snapshot containing the listing key `"listing1"` bound to an entry without
`display_name`; `TGTGSensor.__init__` reads
`self.coordinator.data[item_id]["display_name"]` with no exception handling
and raises `KeyError`. -/
theorem C1_counterexample :
    TGTGSensor_init
      (PyVal.dict [(PyVal.str "listing1",
        PyVal.dict [(PyVal.str "items_available", PyVal.int 3)])])
      (PyVal.str "listing1")
      = Except.error PyErr.keyError := rfl

/-- C1 (amended): sensor construction captures `display_name` and succeeds
whenever the snapshot entry for the identifier has that key, and raises
`KeyError` whenever the entry exists but the key is absent. -/
theorem C1_amended (cdata itemId entry name : PyVal)
    (hentry : pyGetItem cdata itemId = Except.ok entry) :
    (pyGetItem entry (PyVal.str "display_name") = Except.ok name →
      TGTGSensor_init cdata itemId = Except.ok (itemId, name)) ∧
    (pyGetItem entry (PyVal.str "display_name") = Except.error PyErr.keyError →
      TGTGSensor_init cdata itemId = Except.error PyErr.keyError) := by
  constructor <;> intro h <;> simp [TGTGSensor_init, hentry, h]

/-- C1 amended claim instantiated: an entry with `display_name` present
yields a successful construction capturing the name. -/
theorem C1_witness :
    TGTGSensor_init
      (PyVal.dict [(PyVal.str "a",
        PyVal.dict [(PyVal.str "display_name", PyVal.str "Shop")])])
      (PyVal.str "a")
      = Except.ok (PyVal.str "a", PyVal.str "Shop") :=
  (C1_amended
    (PyVal.dict [(PyVal.str "a",
      PyVal.dict [(PyVal.str "display_name", PyVal.str "Shop")])])
    (PyVal.str "a")
    (PyVal.dict [(PyVal.str "display_name", PyVal.str "Shop")])
    (PyVal.str "Shop") rfl).1 rfl

/-- C9: on any coordinator snapshot (a dict), `native_value` never raises:
it returns the listing entry's `items_available` value when the listing key
and the field are present, and the explicit unknown value `None` when the
listing key is missing or the field is missing. -/
theorem C9_native_value (es : List (PyVal × PyVal)) (itemId : PyVal) :
    (∃ r, native_value (PyVal.dict es) itemId = Except.ok r) ∧
    (∀ entry v, pyGetItem (PyVal.dict es) itemId = Except.ok entry →
      pyGetItem entry (PyVal.str "items_available") = Except.ok v →
      native_value (PyVal.dict es) itemId = Except.ok (some v)) ∧
    (pyGetItem (PyVal.dict es) itemId = Except.error PyErr.keyError →
      native_value (PyVal.dict es) itemId = Except.ok Option.none) ∧
    (∀ entry, pyGetItem (PyVal.dict es) itemId = Except.ok entry →
      pyGetItem entry (PyVal.str "items_available") = Except.error PyErr.keyError →
      native_value (PyVal.dict es) itemId = Except.ok Option.none) := by
  refine ⟨?_, ?_, ?_, ?_⟩
  · cases h1 : pyGetItem (PyVal.dict es) itemId with
    | error e =>
        rcases pyGetItem_dict_err es itemId e h1 with rfl | rfl <;>
          exact ⟨Option.none, by simp [native_value, h1]⟩
    | ok entry =>
        cases h2 : pyGetItem entry (PyVal.str "items_available") with
        | error e =>
            rcases pyGetItem_strkey_err entry _ e h2 with rfl | rfl <;>
              exact ⟨Option.none, by simp [native_value, h1, h2]⟩
        | ok v => exact ⟨some v, by simp [native_value, h1, h2]⟩
  · intro entry v h1 h2; simp [native_value, h1, h2]
  · intro h1; simp [native_value, h1]
  · intro entry h1 h2; simp [native_value, h1, h2]

/-- C9 instantiated: a snapshot with the listing and the field present
yields that value; one without yields the unknown `None`. -/
theorem C9_witness :
    native_value (PyVal.dict [(PyVal.str "a",
        PyVal.dict [(PyVal.str "items_available", PyVal.int 3)])])
      (PyVal.str "a") = Except.ok (some (PyVal.int 3)) :=
  (C9_native_value [(PyVal.str "a",
      PyVal.dict [(PyVal.str "items_available", PyVal.int 3)])]
    (PyVal.str "a")).2.1 _ _ rfl rfl

/-- A value `pyEq`-equal to a string is that string. -/
theorem pyEq_str_right (x : PyVal) (s : String) (h : pyEq x (PyVal.str s) = true) :
    x = PyVal.str s := by
  cases x <;> simp only [pyEq] at h
  case str a => rw [eq_of_beq h]
  all_goals exact Bool.noConfusion h

/-- A value `pyEq`-equal to a string is that string (left version). -/
theorem pyEq_str_left (s : String) (x : PyVal) (h : pyEq (PyVal.str s) x = true) :
    x = PyVal.str s := by
  cases x <;> simp only [pyEq] at h
  case str a => rw [eq_of_beq h]
  all_goals exact Bool.noConfusion h

/-- `pyEq` on two strings is string equality. -/
theorem pyEq_str_str (a b : String) : pyEq (PyVal.str a) (PyVal.str b) = (a == b) := rfl

/-- Looking up the key just set yields the new value (string keys). -/
theorem pyFind_dictSet_self (d : List (PyVal × PyVal)) (s : String) (v : PyVal) :
    pyFind (dictSet d (PyVal.str s) v) (PyVal.str s) = some v := by
  induction d with
  | nil => simp [dictSet, pyFind, pyEq_str_str]
  | cons e rest ih =>
      obtain ⟨k0, v0⟩ := e
      by_cases hc : pyEq k0 (PyVal.str s) = true
      · rw [pyEq_str_right k0 s hc]
        simp [dictSet, pyFind, pyEq_str_str]
      · rw [Bool.not_eq_true] at hc
        simp [dictSet, pyFind, hc, ih]

/-- Setting a key that is not `pyEq`-equal to a string target leaves the
lookup of that target unchanged. -/
theorem pyFind_dictSet_ne (d : List (PyVal × PyVal)) (k v : PyVal) (s : String)
    (hk : pyEq k (PyVal.str s) = false) :
    pyFind (dictSet d k v) (PyVal.str s) = pyFind d (PyVal.str s) := by
  induction d with
  | nil => simp [dictSet, pyFind, hk]
  | cons e rest ih =>
      obtain ⟨k0, v0⟩ := e
      by_cases hc : pyEq k0 k = true
      · have hk0 : pyEq k0 (PyVal.str s) = false := by
          by_contra hx
          rw [Bool.not_eq_false] at hx
          rw [pyEq_str_right k0 s hx] at hc
          rw [pyEq_str_left s k hc] at hk
          simp [pyEq_str_str] at hk
        simp [dictSet, pyFind, hc, hk0]
      · rw [Bool.not_eq_true] at hc
        by_cases h0 : pyEq k0 (PyVal.str s) = true
        · simp [dictSet, pyFind, hc, h0]
        · rw [Bool.not_eq_true] at h0
          simp [dictSet, pyFind, hc, h0, ih]

/-- Setting any key preserves presence of any present string key. -/
theorem pyFind_dictSet_present (d : List (PyVal × PyVal)) (k v : PyVal)
    (s : String) (w : PyVal) (h : pyFind d (PyVal.str s) = some w) :
    ∃ u, pyFind (dictSet d k v) (PyVal.str s) = some u := by
  induction d with
  | nil => simp [pyFind] at h
  | cons e rest ih =>
      obtain ⟨k0, v0⟩ := e
      by_cases hc : pyEq k0 k = true
      · by_cases h0 : pyEq k0 (PyVal.str s) = true
        · exact ⟨v, by simp [dictSet, pyFind, hc, h0]⟩
        · rw [Bool.not_eq_true] at h0
          simp only [pyFind, h0] at h
          simp only [Bool.false_eq_true, if_false] at h
          exact ⟨w, by simp [dictSet, pyFind, hc, h0, h]⟩
      · rw [Bool.not_eq_true] at hc
        by_cases h0 : pyEq k0 (PyVal.str s) = true
        · exact ⟨v0, by simp [dictSet, pyFind, hc, h0]⟩
        · rw [Bool.not_eq_true] at h0
          simp only [pyFind, h0] at h
          simp only [Bool.false_eq_true, if_false] at h
          obtain ⟨u, hu⟩ := ih h
          exact ⟨u, by simp [dictSet, pyFind, hc, h0, hu]⟩

/-- When every configured fetch succeeds, `fetchItems` succeeds; the result
binds each requested identifier to its response, leaves other string keys
unchanged, and its string-keyed domain is the accumulator's plus the
requested identifiers. -/
theorem fetchItems_ok (gi : String → Except String PyVal) :
    ∀ (items : List String) (d : List (PyVal × PyVal)),
    (∀ id ∈ items, ∃ v, gi id = Except.ok v) →
    ∃ dr, fetchItems gi items d = Except.ok dr ∧
      (∀ id v, id ∈ items → gi id = Except.ok v →
        pyFind dr (PyVal.str id) = some v) ∧
      (∀ s : String, s ∉ items →
        pyFind dr (PyVal.str s) = pyFind d (PyVal.str s)) ∧
      (∀ s : String, (∃ u, pyFind dr (PyVal.str s) = some u) ↔
        (s ∈ items ∨ ∃ u, pyFind d (PyVal.str s) = some u)) := by
  intro items
  induction items with
  | nil =>
      intro d _
      exact ⟨d, rfl, by simp, fun s _ => rfl, by simp⟩
  | cons id rest ih =>
      intro d hall
      obtain ⟨v0, hv0⟩ := hall id (List.mem_cons_self id rest)
      obtain ⟨dr, hrun, hbind, hpres, hdom⟩ :=
        ih (dictSet d (PyVal.str id) v0) (fun i hi => hall i (List.mem_cons_of_mem id hi))
      refine ⟨dr, ?_, ?_, ?_, ?_⟩
      · simp only [fetchItems, hv0]
        exact hrun
      · intro i vi hi hok
        rcases List.mem_cons.mp hi with rfl | hmem
        · by_cases hr : i ∈ rest
          · exact hbind i vi hr hok
          · rw [hpres i hr, pyFind_dictSet_self]
            rw [hv0] at hok
            exact congrArg some (Except.ok.inj hok)
        · exact hbind i vi hmem hok
      · intro s hs
        rw [List.mem_cons, not_or] at hs
        rw [hpres s hs.2, pyFind_dictSet_ne]
        simp [pyEq_str_str]
        exact fun h => hs.1 h.symm
      · intro s
        by_cases hid : s = id
        · subst hid
          constructor
          · intro _
            exact Or.inl (List.mem_cons_self s rest)
          · intro _
            by_cases hr : s ∈ rest
            · exact (hdom s).mpr (Or.inl hr)
            · rw [hpres s hr, pyFind_dictSet_self]
              exact ⟨v0, rfl⟩
        · rw [hdom s, pyFind_dictSet_ne d (PyVal.str id) v0 s
            (by simp [pyEq_str_str]; exact fun h => hid h.symm)]
          rw [List.mem_cons]
          constructor
          · rintro (hr | hu)
            · exact Or.inl (Or.inr hr)
            · exact Or.inr hu
          · rintro ((rfl | hr) | hu)
            · exact absurd rfl hid
            · exact Or.inl hr
            · exact Or.inr hu

/-- When a configured fetch raises (after a prefix of successes),
`fetchItems` fails with that call's message. -/
theorem fetchItems_fail (gi : String → Except String PyVal) :
    ∀ (pre : List String) (id : String) (rest : List String)
      (d : List (PyVal × PyVal)) (m : String),
    (∀ i ∈ pre, ∃ v, gi i = Except.ok v) → gi id = Except.error m →
    fetchItems gi (pre ++ id :: rest) d = Except.error (UpdateErr.client m) := by
  intro pre
  induction pre with
  | nil =>
      intro id rest d m _ hm
      simp only [List.nil_append, fetchItems, hm]
  | cons p prest ih =>
      intro id rest d m hall hm
      obtain ⟨v0, hv0⟩ := hall p (List.mem_cons_self p prest)
      simp only [List.cons_append, fetchItems, hv0]
      exact ih id rest _ m (fun i hi => hall i (List.mem_cons_of_mem p hi)) hm

/-- C2: if any fetch call of the cycle raises — `get_item` on some
configured identifier in explicit mode (after earlier identifiers
succeeded, since the loop aborts at the first failure), or `get_favorites`
in favorites mode — then `_async_update_data` fails with an `UpdateFailed`
whose message wraps the original error's message, and the coordinator
(modelled from the spec) keeps the previously published snapshot
unchanged.  No partial snapshot escapes: the cycle's only product is the
error. -/
theorem C2_fetch_failure (gi : String → Except String PyVal)
    (gf : Except String (List PyVal)) (items : List String)
    (prev : Option PyVal) :
    (∀ pre id rest m, items = pre ++ id :: rest → items ≠ [""] →
      (∀ i ∈ pre, ∃ v, gi i = Except.ok v) → gi id = Except.error m →
      update_data gi gf items =
        Except.error ("Error communicating with TGTG API: " ++ m) ∧
      refreshData prev (update_data gi gf items) = prev) ∧
    (∀ m, items = [""] → gf = Except.error m →
      update_data gi gf items =
        Except.error ("Error communicating with TGTG API: " ++ m) ∧
      refreshData prev (update_data gi gf items) = prev) := by
  constructor
  · rintro pre id rest m rfl hmode hpre hm
    have hfail := fetchItems_fail gi pre id rest
      [(PyVal.str "orders", PyVal.str "")] m hpre hm
    have hupd : update_data gi gf (pre ++ id :: rest) =
        Except.error ("Error communicating with TGTG API: " ++ m) := by
      simp only [update_data, updateDataCore, if_pos hmode, hfail, renderUpdateErr]
    exact ⟨hupd, by rw [hupd]; rfl⟩
  · rintro m rfl hm
    have hupd : update_data gi gf [""] =
        Except.error ("Error communicating with TGTG API: " ++ m) := by
      simp only [update_data, updateDataCore, hm, renderUpdateErr, if_neg
        (by simp : ¬([""] : List String) ≠ [""])]
    exact ⟨hupd, by rw [hupd]; rfl⟩

/-- C2 instantiated: a failing `get_item` call in explicit mode and a
failing `get_favorites` call in favorites mode each abort the cycle with the
wrapped message and leave the previous snapshot in place. -/
theorem C2_witness :
    (update_data (fun _ => Except.error "boom") (Except.ok []) ["a"] =
      Except.error "Error communicating with TGTG API: boom" ∧
     refreshData (some (PyVal.dict []))
       (update_data (fun _ => Except.error "boom") (Except.ok []) ["a"]) =
       some (PyVal.dict [])) ∧
    (update_data (fun _ => Except.ok PyVal.none) (Except.error "nofavs") [""] =
      Except.error "Error communicating with TGTG API: nofavs" ∧
     refreshData (some (PyVal.dict []))
       (update_data (fun _ => Except.ok PyVal.none) (Except.error "nofavs") [""]) =
       some (PyVal.dict [])) :=
  ⟨(C2_fetch_failure (fun _ => Except.error "boom") (Except.ok [])
      ["a"] (some (PyVal.dict []))).1 [] "a" [] "boom" rfl (by decide)
      (by intro i hi; exact absurd hi (List.not_mem_nil i)) rfl,
   (C2_fetch_failure (fun _ => Except.ok PyVal.none) (Except.error "nofavs")
      [""] (some (PyVal.dict []))).2 "nofavs" rfl rfl⟩

/-- C6: in explicit mode, when every configured fetch succeeds the cycle
succeeds and the snapshot maps each requested identifier (the key used in
the request, not anything from the payload) to that request's response;
its string-keyed domain is exactly the requested identifiers plus the
always-present `"orders"` key. -/
theorem C6_explicit_snapshot (gi : String → Except String PyVal)
    (gf : Except String (List PyVal)) (items : List String)
    (hmode : items ≠ [""])
    (hall : ∀ id ∈ items, ∃ v, gi id = Except.ok v) :
    ∃ d, update_data gi gf items = Except.ok (PyVal.dict d) ∧
      (∀ id v, id ∈ items → gi id = Except.ok v →
        pyFind d (PyVal.str id) = some v) ∧
      (∀ s : String, (∃ u, pyFind d (PyVal.str s) = some u) ↔
        (s = "orders" ∨ s ∈ items)) := by
  obtain ⟨dr, hrun, hbind, _, hdom⟩ :=
    fetchItems_ok gi items [(PyVal.str "orders", PyVal.str "")] hall
  refine ⟨dr, ?_, hbind, ?_⟩
  · simp only [update_data, updateDataCore, if_pos hmode, hrun]
  · intro s
    rw [hdom s]
    constructor
    · rintro (hs | ⟨u, hu⟩)
      · exact Or.inr hs
      · simp only [pyFind] at hu
        by_cases ho : s = "orders"
        · exact Or.inl ho
        · rw [if_neg (by simp [pyEq_str_str]; exact fun h => ho h.symm)] at hu
          exact absurd hu (by simp [pyFind])
    · rintro (rfl | hs)
      · exact Or.inr ⟨PyVal.str "", by simp [pyFind, pyEq_str_str]⟩
      · exact Or.inl hs

/-- C6 instantiated: two configured identifiers, both fetches succeed; the
snapshot binds each request key to its response and has exactly those keys
plus `"orders"`. -/
theorem C6_witness :
    ∃ d, update_data (fun id => Except.ok (PyVal.str id)) (Except.error "x")
        ["a", "b"] = Except.ok (PyVal.dict d) ∧
      (∀ id v, id ∈ (["a", "b"] : List String) →
        (Except.ok (PyVal.str id) : Except String PyVal) = Except.ok v →
        pyFind d (PyVal.str id) = some v) ∧
      (∀ s : String, (∃ u, pyFind d (PyVal.str s) = some u) ↔
        (s = "orders" ∨ s ∈ ["a", "b"])) :=
  C6_explicit_snapshot (fun id => Except.ok (PyVal.str id)) (Except.error "x")
    ["a", "b"] (by decide) (fun id _ => ⟨PyVal.str id, rfl⟩)

/-- Inversion of a successful `update_data`: either explicit mode with a
successful `fetchItems`, or favorites mode with a successful `addFavs`, in
both cases started from the `{"orders": ""}` seed. -/
theorem update_data_ok_inv (gi : String → Except String PyVal)
    (gf : Except String (List PyVal)) (items : List String) (v : PyVal)
    (h : update_data gi gf items = Except.ok v) :
    (items ≠ [""] ∧ ∃ dr,
      fetchItems gi items [(PyVal.str "orders", PyVal.str "")] = Except.ok dr ∧
      v = PyVal.dict dr) ∨
    (items = [""] ∧ ∃ favs dr, gf = Except.ok favs ∧
      addFavs favs [(PyVal.str "orders", PyVal.str "")] = Except.ok dr ∧
      v = PyVal.dict dr) := by
  by_cases hmode : items ≠ [""]
  · left
    refine ⟨hmode, ?_⟩
    simp only [update_data, updateDataCore, if_pos hmode] at h
    cases hrun : fetchItems gi items [(PyVal.str "orders", PyVal.str "")] with
    | error e => rw [hrun] at h; exact absurd h (by simp)
    | ok dr =>
        rw [hrun] at h
        exact ⟨dr, rfl, (Except.ok.inj h).symm⟩
  · right
    rw [not_not] at hmode
    refine ⟨hmode, ?_⟩
    subst hmode
    simp only [update_data, updateDataCore] at h
    rw [if_neg (show ¬([""] : List String) ≠ [""] from by simp)] at h
    cases hgf : gf with
    | error m => rw [hgf] at h; exact absurd h (by simp)
    | ok favs =>
        rw [hgf] at h
        dsimp only at h
        cases hrun : addFavs favs [(PyVal.str "orders", PyVal.str "")] with
        | error e => rw [hrun] at h; exact absurd h (by simp)
        | ok dr =>
            rw [hrun] at h
            exact ⟨favs, dr, rfl, hrun, (Except.ok.inj h).symm⟩

/-- A successful `fetchItems` leaves the lookup of any string key that is
not among the requested identifiers unchanged. -/
theorem fetchItems_preserve (gi : String → Except String PyVal) :
    ∀ (items : List String) (d dr : List (PyVal × PyVal)) (s : String),
    fetchItems gi items d = Except.ok dr → s ∉ items →
    pyFind dr (PyVal.str s) = pyFind d (PyVal.str s) := by
  intro items
  induction items with
  | nil =>
      intro d dr s h _
      rw [(Except.ok.inj h)]
  | cons id rest ih =>
      intro d dr s h hs
      rw [List.mem_cons, not_or] at hs
      simp only [fetchItems] at h
      cases hv : gi id with
      | error m => rw [hv] at h; exact absurd h (by simp)
      | ok v =>
          rw [hv] at h
          rw [ih _ _ s h hs.2, pyFind_dictSet_ne]
          simp [pyEq_str_str]
          exact fun hx => hs.1 hx.symm

/-- A successful `addFavs` leaves the lookup of any string key that no
processed favorite's `item.item_id` is `pyEq`-equal to unchanged. -/
theorem addFavs_preserve :
    ∀ (favs : List PyVal) (d dr : List (PyVal × PyVal)) (s : String),
    addFavs favs d = Except.ok dr →
    (∀ f ∈ favs, ∀ iid, favItemId f = Except.ok iid →
      pyEq iid (PyVal.str s) = false) →
    pyFind dr (PyVal.str s) = pyFind d (PyVal.str s) := by
  intro favs
  induction favs with
  | nil =>
      intro d dr s h _
      rw [(Except.ok.inj h)]
  | cons fav rest ih =>
      intro d dr s h hlater
      simp only [addFavs] at h
      cases hid : favItemId fav with
      | error e => rw [hid] at h; exact absurd h (by simp)
      | ok iid =>
          rw [hid] at h
          have hne : pyEq iid (PyVal.str s) = false :=
            hlater fav (List.mem_cons_self fav rest) iid hid
          have hrest : ∀ f ∈ rest, ∀ iid2, favItemId f = Except.ok iid2 →
              pyEq iid2 (PyVal.str s) = false :=
            fun f hf => hlater f (List.mem_cons_of_mem fav hf)
          cases iid with
          | list xs => exact absurd h (by simp)
          | dict es => exact absurd h (by simp)
          | none => rw [ih _ _ s h hrest, pyFind_dictSet_ne _ _ _ _ hne]
          | bool b => rw [ih _ _ s h hrest, pyFind_dictSet_ne _ _ _ _ hne]
          | int n => rw [ih _ _ s h hrest, pyFind_dictSet_ne _ _ _ _ hne]
          | str t => rw [ih _ _ s h hrest, pyFind_dictSet_ne _ _ _ _ hne]

/-- `addFavs` over an append runs the two halves in sequence. -/
theorem addFavs_append :
    ∀ (l1 l2 : List PyVal) (d : List (PyVal × PyVal)),
    addFavs (l1 ++ l2) d =
      match addFavs l1 d with
      | Except.error e => Except.error e
      | Except.ok d1 => addFavs l2 d1 := by
  intro l1
  induction l1 with
  | nil => intro l2 d; rfl
  | cons fav rest ih =>
      intro l2 d
      simp only [List.cons_append, addFavs]
      cases hid : favItemId fav with
      | error e => rfl
      | ok iid => cases iid <;> simp [ih]

/-- A successful `fetchItems` keeps every string key of the accumulator
present. -/
theorem fetchItems_present (gi : String → Except String PyVal) :
    ∀ (items : List String) (d dr : List (PyVal × PyVal)) (s : String) (w : PyVal),
    fetchItems gi items d = Except.ok dr → pyFind d (PyVal.str s) = some w →
    ∃ u, pyFind dr (PyVal.str s) = some u := by
  intro items
  induction items with
  | nil =>
      intro d dr s w h hw
      rw [(Except.ok.inj h)] at hw
      exact ⟨w, hw⟩
  | cons id rest ih =>
      intro d dr s w h hw
      simp only [fetchItems] at h
      cases hv : gi id with
      | error m => rw [hv] at h; exact absurd h (by simp)
      | ok v =>
          rw [hv] at h
          obtain ⟨u, hu⟩ := pyFind_dictSet_present d (PyVal.str id) v s w hw
          exact ih _ _ s u h hu

/-- A successful `addFavs` keeps every string key of the accumulator
present. -/
theorem addFavs_present :
    ∀ (favs : List PyVal) (d dr : List (PyVal × PyVal)) (s : String) (w : PyVal),
    addFavs favs d = Except.ok dr → pyFind d (PyVal.str s) = some w →
    ∃ u, pyFind dr (PyVal.str s) = some u := by
  intro favs
  induction favs with
  | nil =>
      intro d dr s w h hw
      rw [(Except.ok.inj h)] at hw
      exact ⟨w, hw⟩
  | cons fav rest ih =>
      intro d dr s w h hw
      simp only [addFavs] at h
      cases hid : favItemId fav with
      | error e => rw [hid] at h; exact absurd h (by simp)
      | ok iid =>
          rw [hid] at h
          cases iid with
          | list xs => exact absurd h (by simp)
          | dict es => exact absurd h (by simp)
          | none =>
              obtain ⟨u, hu⟩ := pyFind_dictSet_present d _ fav s w hw
              exact ih _ _ s u h hu
          | bool b =>
              obtain ⟨u, hu⟩ := pyFind_dictSet_present d _ fav s w hw
              exact ih _ _ s u h hu
          | int n =>
              obtain ⟨u, hu⟩ := pyFind_dictSet_present d _ fav s w hw
              exact ih _ _ s u h hu
          | str t =>
              obtain ⟨u, hu⟩ := pyFind_dictSet_present d _ fav s w hw
              exact ih _ _ s u h hu

/-- C7: the claim maps every favorite entry's `item.item_id` to that entry's
full payload.  Counterexample: two favorites sharing `item_id "A"` — the
snapshot binds `"A"` to the second entry (`data[item_id] = item` overwrites),
so the first favorite entry, which also carries id `"A"`, is not mapped to
its own payload. -/
theorem C7_counterexample :
    update_data (fun _ => Except.ok PyVal.none) (Except.ok [c7fav1, c7fav2]) [""] =
      Except.ok (PyVal.dict [(PyVal.str "orders", PyVal.str ""),
        (PyVal.str "A", c7fav2)]) ∧
    favItemId c7fav1 = Except.ok (PyVal.str "A") ∧
    c7fav1 ≠ c7fav2 := by
  refine ⟨rfl, rfl, fun h => ?_⟩
  have h2 : pyGetItem c7fav1 (PyVal.str "items_available") =
      pyGetItem c7fav2 (PyVal.str "items_available") := by rw [h]
  have h3 : (Except.ok (PyVal.int 1) : Except PyErr PyVal) =
      Except.ok (PyVal.int 2) := h2
  exact absurd (PyVal.int.inj (Except.ok.inj h3)) (by decide)

/-- C7 (amended): under the favorites policy, a successful snapshot maps
each favorite entry's `item.item_id` to that entry's full payload provided
no later favorite entry carries an id `pyEq`-equal to it; with duplicates
the last entry wins. -/
theorem C7_amended (gi : String → Except String PyVal)
    (favs l1 l2 : List PyVal) (fav : PyVal) (iid : String)
    (d : List (PyVal × PyVal))
    (hsplit : favs = l1 ++ fav :: l2)
    (hid : favItemId fav = Except.ok (PyVal.str iid))
    (hlater : ∀ f2 ∈ l2, ∀ iid2, favItemId f2 = Except.ok iid2 →
      pyEq iid2 (PyVal.str iid) = false)
    (hok : update_data gi (Except.ok favs) [""] = Except.ok (PyVal.dict d)) :
    pyFind d (PyVal.str iid) = some fav := by
  rcases update_data_ok_inv gi (Except.ok favs) [""] (PyVal.dict d) hok with
    ⟨hmode, _⟩ | ⟨_, favs2, dr, hgf, hrun, hv⟩
  · exact absurd rfl hmode
  · have hfavs : favs = favs2 := Except.ok.inj hgf
    have hd : d = dr := PyVal.dict.inj hv
    subst hd
    rw [← hfavs, hsplit] at hrun
    rw [addFavs_append l1 (fav :: l2) [(PyVal.str "orders", PyVal.str "")]] at hrun
    cases h1 : addFavs l1 [(PyVal.str "orders", PyVal.str "")] with
    | error e => rw [h1] at hrun; exact absurd hrun (by simp)
    | ok d1 =>
        rw [h1] at hrun
        dsimp only at hrun
        rw [show addFavs (fav :: l2) d1 =
            addFavs l2 (dictSet d1 (PyVal.str iid) fav) from by
          simp [addFavs, hid]] at hrun
        rw [addFavs_preserve l2 _ d iid hrun hlater, pyFind_dictSet_self]

/-- C7 amended claim instantiated: two favorites with distinct ids `"A"`
and `"B"`; the snapshot maps `"A"` to the first entry's full payload. -/
theorem C7_witness :
    pyFind [(PyVal.str "orders", PyVal.str ""),
      (PyVal.str "A", PyVal.dict [(PyVal.str "item",
        PyVal.dict [(PyVal.str "item_id", PyVal.str "A")])]),
      (PyVal.str "B", PyVal.dict [(PyVal.str "item",
        PyVal.dict [(PyVal.str "item_id", PyVal.str "B")])])]
      (PyVal.str "A") =
      some (PyVal.dict [(PyVal.str "item",
        PyVal.dict [(PyVal.str "item_id", PyVal.str "A")])]) :=
  C7_amended (fun _ => Except.ok PyVal.none)
    [PyVal.dict [(PyVal.str "item", PyVal.dict [(PyVal.str "item_id", PyVal.str "A")])],
     PyVal.dict [(PyVal.str "item", PyVal.dict [(PyVal.str "item_id", PyVal.str "B")])]]
    []
    [PyVal.dict [(PyVal.str "item", PyVal.dict [(PyVal.str "item_id", PyVal.str "B")])]]
    (PyVal.dict [(PyVal.str "item", PyVal.dict [(PyVal.str "item_id", PyVal.str "A")])])
    "A"
    [(PyVal.str "orders", PyVal.str ""),
     (PyVal.str "A", PyVal.dict [(PyVal.str "item",
       PyVal.dict [(PyVal.str "item_id", PyVal.str "A")])]),
     (PyVal.str "B", PyVal.dict [(PyVal.str "item",
       PyVal.dict [(PyVal.str "item_id", PyVal.str "B")])])]
    rfl rfl
    (by
      intro f2 hf2 iid2 hid2
      rw [List.mem_singleton] at hf2
      subst hf2
      have : iid2 = PyVal.str "B" :=
        (Except.ok.inj hid2.symm).symm ▸ rfl
      subst this
      rfl)
    rfl

/-- C8: the claim says every successful snapshot's `"orders"` key holds the
fixed empty placeholder.  Counterexample: configuring the explicit item list
`["orders"]` (not the favorites sentinel) makes the fetched payload
overwrite the placeholder: the key is bound to the response `int 7`, not to
`""`. -/
theorem C8_counterexample :
    update_data (fun _ => Except.ok (PyVal.int 7)) (Except.ok []) ["orders"] =
      Except.ok (PyVal.dict [(PyVal.str "orders", PyVal.int 7)]) ∧
    PyVal.int 7 ≠ PyVal.str "" :=
  ⟨rfl, fun h => PyVal.noConfusion h⟩

/-- C8 (amended): every snapshot produced by a successful refresh cycle
contains an `"orders"` key, in both selection policies.  It is bound to the
fixed empty placeholder `""` provided no requested identifier (explicit
mode) and no favorite's `item.item_id` (favorites mode) collides with the
string `"orders"`; a colliding identifier overwrites the placeholder with
its payload. -/
theorem C8_orders_key (gi : String → Except String PyVal)
    (gf : Except String (List PyVal)) (items : List String)
    (d : List (PyVal × PyVal))
    (hok : update_data gi gf items = Except.ok (PyVal.dict d)) :
    (∃ v, pyFind d (PyVal.str "orders") = some v) ∧
    (items ≠ [""] → "orders" ∉ items →
      pyFind d (PyVal.str "orders") = some (PyVal.str "")) ∧
    (∀ favs, items = [""] → gf = Except.ok favs →
      (∀ f ∈ favs, ∀ iid, favItemId f = Except.ok iid →
        pyEq iid (PyVal.str "orders") = false) →
      pyFind d (PyVal.str "orders") = some (PyVal.str "")) := by
  have hseed : pyFind [(PyVal.str "orders", PyVal.str "")] (PyVal.str "orders") =
      some (PyVal.str "") := by simp [pyFind, pyEq_str_str]
  rcases update_data_ok_inv gi gf items (PyVal.dict d) hok with
    ⟨hmode, dr, hrun, hv⟩ | ⟨hmode, favs2, dr, hgf, hrun, hv⟩
  · have hd : d = dr := PyVal.dict.inj hv
    subst hd
    refine ⟨?_, ?_, ?_⟩
    · exact fetchItems_present gi items _ _ "orders" _ hrun hseed
    · intro _ hno
      rw [fetchItems_preserve gi items _ _ "orders" hrun hno, hseed]
    · intro favs heq _ _
      exact absurd heq hmode
  · have hd : d = dr := PyVal.dict.inj hv
    subst hd
    refine ⟨?_, ?_, ?_⟩
    · exact addFavs_present favs2 _ _ "orders" _ hrun hseed
    · intro hne _
      exact absurd hmode hne
    · intro favs _ hgf2 hnone
      have : favs = favs2 := Except.ok.inj (hgf2.symm.trans hgf)
      subst this
      rw [addFavs_preserve favs _ _ "orders" hrun hnone, hseed]

/-- C8 amended claim instantiated: explicit mode with identifier `"a"`;
the snapshot keeps the `"orders"` key bound to the empty placeholder. -/
theorem C8_witness :
    pyFind [(PyVal.str "orders", PyVal.str ""), (PyVal.str "a", PyVal.int 1)]
      (PyVal.str "orders") = some (PyVal.str "") :=
  (C8_orders_key (fun _ => Except.ok (PyVal.int 1)) (Except.ok []) ["a"]
    [(PyVal.str "orders", PyVal.str ""), (PyVal.str "a", PyVal.int 1)]
    rfl).2.1 (by decide) (by decide)

/-- Case analysis for a failing bind. -/
theorem bind_err_cases {α β : Type} (x : Except PyErr α) (f : α → Except PyErr β)
    (e : PyErr) (h : (x >>= f) = Except.error e) :
    x = Except.error e ∨ ∃ a, x = Except.ok a ∧ f a = Except.error e := by
  cases x with
  | error e2 =>
      simp only [bindE_err] at h
      exact Or.inl (by rw [Except.error.inj h])
  | ok a =>
      simp only [bindE_ok] at h
      exact Or.inr ⟨a, rfl, h⟩

/-- Distinct strings are not `pyEq`-equal. -/
theorem pyEq_str_of_ne (a b : String) (h : ¬ a = b) :
    pyEq (PyVal.str a) (PyVal.str b) = false := by
  rw [pyEq_str_str]
  exact beq_eq_false_iff_ne.mpr h

/-- The dict membership test agrees with `pyFind`. -/
theorem any_iff_pyFind (es : List (PyVal × PyVal)) (n : String) :
    (es.any fun e => pyEq e.1 (PyVal.str n)) = true ↔
      ∃ v, pyFind es (PyVal.str n) = some v := by
  induction es with
  | nil => simp [pyFind]
  | cons e rest ih =>
      obtain ⟨k0, v0⟩ := e
      by_cases hc : pyEq k0 (PyVal.str n) = true
      · simp [pyFind, hc]
      · rw [Bool.not_eq_true] at hc
        simp [pyFind, hc, ih]

/-! Closure of `KTVRes` under the combinators used by the attribute
projection. -/

theorem ktv_ok {α : Type} (a : α) : KTVRes (Except.ok a : Except PyErr α) :=
  fun _ h => absurd h (by simp)

theorem ktv_pure {α : Type} (a : α) : KTVRes (pure a : Except PyErr α) :=
  ktv_ok a

theorem ktv_bind {α β : Type} (x : Except PyErr α) (f : α → Except PyErr β)
    (hx : KTVRes x) (hf : ∀ a, KTVRes (f a)) : KTVRes (x >>= f) := by
  intro e h
  rcases bind_err_cases x f e h with h1 | ⟨a, _, h2⟩
  · exact hx e h1
  · exact hf a e h2

theorem ktv_ite {α : Type} (c : Prop) [Decidable c] (x y : Except PyErr α)
    (hx : KTVRes x) (hy : KTVRes y) : KTVRes (if c then x else y) := by
  by_cases h : c
  · rw [if_pos h]; exact hx
  · rw [if_neg h]; exact hy

theorem ktv_contains (n : String) (v : PyVal) : KTVRes (pyContains n v) :=
  fun e h => Or.inr (Or.inl (pyContains_err n v e h))

theorem ktv_get_str (v : PyVal) (s : String) :
    KTVRes (pyGetItem v (PyVal.str s)) :=
  fun e h => (pyGetItem_strkey_err v s e h).imp id Or.inl

theorem ktv_get_dict (es : List (PyVal × PyVal)) (k : PyVal) :
    KTVRes (pyGetItem (PyVal.dict es) k) :=
  fun e h => (pyGetItem_dict_err es k e h).imp id Or.inl

theorem ktv_int (v : PyVal) : KTVRes (pyInt v) :=
  fun e h => Or.inr (pyInt_err v e h)

theorem ktv_addInt (a : Int) (v : PyVal) : KTVRes (pyAddInt a v) :=
  fun e h => Or.inr (Or.inl (pyAddInt_err a v e h))

theorem ktv_addStr (a : String) (v : PyVal) : KTVRes (pyAddStr a v) :=
  fun e h => Or.inr (Or.inl (pyAddStr_err a v e h))

theorem ktv_iter (v : PyVal) : KTVRes (pyIter v) :=
  fun e h => Or.inr (Or.inl (pyIter_err v e h))

theorem ktv_idPart (item : PyVal) (d : List (PyVal × PyVal)) :
    KTVRes (idPart item d) := by
  unfold idPart
  refine ktv_bind _ _ (ktv_contains _ _) fun has => ?_
  refine ktv_ite _ _ _ ?_ (ktv_pure _)
  exact ktv_bind _ _ (ktv_get_str _ _) fun iid => ktv_pure _

theorem ktv_pricePart (item : PyVal) (d : List (PyVal × PyVal)) :
    KTVRes (pricePart item d) := by
  unfold pricePart
  refine ktv_bind _ _ (ktv_contains _ _) fun has => ?_
  refine ktv_ite _ _ _ ?_ (ktv_pure _)
  refine ktv_bind _ _ (ktv_get_str _ _) fun p => ?_
  refine ktv_bind _ _ (ktv_get_str _ _) fun muv => ?_
  refine ktv_bind _ _ (ktv_int _) fun mu => ?_
  refine ktv_bind _ _ (ktv_get_str _ _) fun dev => ?_
  refine ktv_bind _ _ (ktv_int _) fun de => ?_
  refine ktv_bind _ _ (ktv_get_str _ _) fun cv => ?_
  exact ktv_bind _ _ (ktv_addStr _ _) fun s => ktv_pure _

theorem ktv_valuePart (item : PyVal) (d : List (PyVal × PyVal)) :
    KTVRes (valuePart item d) := by
  unfold valuePart
  refine ktv_bind _ _ (ktv_contains _ _) fun has => ?_
  refine ktv_ite _ _ _ ?_ (ktv_pure _)
  refine ktv_bind _ _ (ktv_get_str _ _) fun p => ?_
  refine ktv_bind _ _ (ktv_get_str _ _) fun muv => ?_
  refine ktv_bind _ _ (ktv_int _) fun mu => ?_
  refine ktv_bind _ _ (ktv_get_str _ _) fun dev => ?_
  refine ktv_bind _ _ (ktv_int _) fun de => ?_
  refine ktv_bind _ _ (ktv_get_str _ _) fun cv => ?_
  exact ktv_bind _ _ (ktv_addStr _ _) fun s => ktv_pure _

theorem ktv_logoPart (item : PyVal) (d : List (PyVal × PyVal)) :
    KTVRes (logoPart item d) := by
  unfold logoPart
  refine ktv_bind _ _ (ktv_contains _ _) fun has => ?_
  refine ktv_ite _ _ _ ?_ (ktv_pure _)
  refine ktv_bind _ _ (ktv_get_str _ _) fun lp => ?_
  exact ktv_bind _ _ (ktv_get_str _ _) fun url => ktv_pure _

theorem ktv_coverPart (item : PyVal) (d : List (PyVal × PyVal)) :
    KTVRes (coverPart item d) := by
  unfold coverPart
  refine ktv_bind _ _ (ktv_contains _ _) fun has => ?_
  refine ktv_ite _ _ _ ?_ (ktv_pure _)
  refine ktv_bind _ _ (ktv_get_str _ _) fun cp => ?_
  exact ktv_bind _ _ (ktv_get_str _ _) fun url => ktv_pure _

theorem ktv_itemAttrs (a : PyVal) (d : List (PyVal × PyVal)) :
    KTVRes (itemAttrs a d) := by
  unfold itemAttrs
  refine ktv_bind _ _ (ktv_contains _ _) fun has => ?_
  refine ktv_ite _ _ _ ?_ (ktv_pure _)
  refine ktv_bind _ _ (ktv_get_str _ _) fun item => ?_
  refine ktv_bind _ _ (ktv_idPart _ _) fun d1 => ?_
  refine ktv_bind _ _ (ktv_pricePart _ _) fun d2 => ?_
  refine ktv_bind _ _ (ktv_valuePart _ _) fun d3 => ?_
  exact ktv_bind _ _ (ktv_logoPart _ _) fun d4 => ktv_coverPart _ _

theorem ktv_startPart (itv : PyVal) (d : List (PyVal × PyVal)) :
    KTVRes (startPart itv d) := by
  unfold startPart
  refine ktv_bind _ _ (ktv_contains _ _) fun hs => ?_
  refine ktv_ite _ _ _ ?_ (ktv_pure _)
  exact ktv_bind _ _ (ktv_get_str _ _) fun v => ktv_pure _

theorem ktv_endPart (itv : PyVal) (d : List (PyVal × PyVal)) :
    KTVRes (endPart itv d) := by
  unfold endPart
  refine ktv_bind _ _ (ktv_contains _ _) fun he => ?_
  refine ktv_ite _ _ _ ?_ (ktv_pure _)
  exact ktv_bind _ _ (ktv_get_str _ _) fun v => ktv_pure _

theorem ktv_pickupIntervalPart (a : PyVal) (d : List (PyVal × PyVal)) :
    KTVRes (pickupIntervalPart a d) := by
  unfold pickupIntervalPart
  refine ktv_bind _ _ (ktv_contains _ _) fun has => ?_
  refine ktv_ite _ _ _ ?_ (ktv_pure _)
  refine ktv_bind _ _ (ktv_get_str _ _) fun itv => ?_
  exact ktv_bind _ _ (ktv_startPart _ _) fun d1 => ktv_endPart _ _

theorem ktv_soldOutPart (a : PyVal) (d : List (PyVal × PyVal)) :
    KTVRes (soldOutPart a d) := by
  unfold soldOutPart
  refine ktv_bind _ _ (ktv_contains _ _) fun hso => ?_
  refine ktv_ite _ _ _ ?_ (ktv_pure _)
  exact ktv_bind _ _ (ktv_get_str _ _) fun v => ktv_pure _

theorem ktv_pickupAttrs (a : PyVal) (d : List (PyVal × PyVal)) :
    KTVRes (pickupAttrs a d) := by
  unfold pickupAttrs
  exact ktv_bind _ _ (ktv_pickupIntervalPart _ _) fun d1 => ktv_soldOutPart _ _

theorem ktv_ordersFold (sid : String) :
    ∀ (os : List PyVal) (d : List (PyVal × PyVal)) (p t : Int),
    KTVRes (ordersFold sid os d p t) := by
  intro os
  induction os with
  | nil => intro d p t; exact ktv_ok _
  | cons o rest ih =>
      intro d p t
      rw [ordersFold]
      refine ktv_bind _ _ (ktv_contains _ _) fun hasId => ?_
      refine ktv_ite _ _ _ ?_ (ih d p t)
      refine ktv_bind _ _ (ktv_get_str _ _) fun oid => ?_
      refine ktv_ite _ _ _ ?_ (ih d p t)
      refine ktv_bind _ _ ?_ fun total => ?_
      · unfold quantityStep
        refine ktv_bind _ _ (ktv_contains _ _) fun hasQ => ?_
        refine ktv_ite _ _ _ ?_ (ktv_pure _)
        exact ktv_bind _ _ (ktv_get_str _ _) fun q => ktv_addInt _ _
      · refine ktv_bind _ _ ?_ fun d2 => ?_
        · unfold pwcStep
          refine ktv_bind _ _ (ktv_contains _ _) fun hasW => ?_
          refine ktv_ite _ _ _ ?_ (ktv_pure _)
          exact ktv_bind _ _ (ktv_get_str _ _) fun v => ktv_pure _
        · refine ktv_bind _ _ ?_ fun d3 => ?_
          · unfold cuStep
            refine ktv_bind _ _ (ktv_contains _ _) fun hasC => ?_
            refine ktv_ite _ _ _ ?_ (ktv_pure _)
            exact ktv_bind _ _ (ktv_get_str _ _) fun v => ktv_pure _
          · exact ih d3 (p + 1) total

theorem ktv_extraAttrsRaw (es : List (PyVal × PyVal)) (itemId : PyVal) :
    KTVRes (extraAttrsRaw (PyVal.dict es) itemId) := by
  unfold extraAttrsRaw
  refine ktv_bind _ _ (ktv_get_dict _ _) fun a => ?_
  refine ktv_bind _ _ ?_ fun orders => ?_
  · rw [pyDictGetE_dict]; exact ktv_ok _
  · refine ktv_bind _ _ (ktv_itemAttrs _ _) fun d1 => ?_
    refine ktv_bind _ _ (ktv_pickupAttrs _ _) fun d2 => ?_
    refine ktv_bind _ _ (ktv_iter _) fun os => ?_
    exact ktv_bind _ _ (ktv_ordersFold _ _ _ _ _) fun res => ktv_pure _

/-- C3: the claim says the attribute projection never raises on any
malformed snapshot, explicitly including non-numeric price fields.
Counterexample: a snapshot whose `item.item_price.minor_units` is the
non-numeric string `"abc"` makes `int(...)` raise `ValueError`, which the
`except (KeyError, TypeError)` clause does not catch — the error escapes to
the caller. -/
theorem C3_counterexample :
    extra_state_attributes
      (PyVal.dict [(PyVal.str "x", PyVal.dict [(PyVal.str "item",
        PyVal.dict [(PyVal.str "item_price",
          PyVal.dict [(PyVal.str "minor_units", PyVal.str "abc")])])])])
      (PyVal.str "x") = Except.error PyErr.valueError := rfl

/-- C3 (amended): on any dict snapshot, every structural mismatch raising
`KeyError` or `TypeError` during attribute derivation yields the empty
attribute set; the only error that can escape the property is `ValueError`,
raised by the `int()` conversions of the price/value fields on non-numeric
strings. -/
theorem C3_attrs_error_policy (es : List (PyVal × PyVal)) (itemId : PyVal) :
    ((extraAttrsRaw (PyVal.dict es) itemId = Except.error PyErr.keyError ∨
      extraAttrsRaw (PyVal.dict es) itemId = Except.error PyErr.typeError) →
      extra_state_attributes (PyVal.dict es) itemId =
        Except.ok (PyVal.dict [])) ∧
    (∀ e, extra_state_attributes (PyVal.dict es) itemId = Except.error e →
      e = PyErr.valueError) := by
  constructor
  · rintro (h | h) <;> simp [extra_state_attributes, h]
  · intro e h
    unfold extra_state_attributes at h
    cases hr : extraAttrsRaw (PyVal.dict es) itemId with
    | ok d => rw [hr] at h; exact absurd h (by simp)
    | error e2 =>
        rw [hr] at h
        rcases ktv_extraAttrsRaw es itemId e2 hr with rfl | rfl | rfl
        · exact absurd h (by simp)
        · exact absurd h (by simp)
        · exact (Except.error.inj h).symm

/-- C3 amended claim instantiated: a listing entry of the wrong type
(an int) makes the derivation raise `TypeError`, which is swallowed into
the empty attribute set. -/
theorem C3_witness :
    extra_state_attributes (PyVal.dict [(PyVal.str "x", PyVal.int 5)])
      (PyVal.str "x") = Except.ok (PyVal.dict []) :=
  (C3_attrs_error_policy [(PyVal.str "x", PyVal.int 5)] (PyVal.str "x")).1
    (Or.inr rfl)

/-- Case analysis for a succeeding bind. -/
theorem bind_ok_cases {α β : Type} (x : Except PyErr α) (f : α → Except PyErr β)
    (b : β) (h : (x >>= f) = Except.ok b) :
    ∃ a, x = Except.ok a ∧ f a = Except.ok b := by
  cases x with
  | error e => exact absurd h (by simp)
  | ok a => exact ⟨a, rfl, h⟩

/-! Preservation lemmas: each block of the attribute projection writes only
its own keys, so the lookup of any other string key passes through. -/

theorem idPart_preserve (item : PyVal) (d d2 : List (PyVal × PyVal)) (s : String)
    (h : idPart item d = Except.ok d2)
    (h1 : ¬ s = ATTR_ITEM_ID) (h2 : ¬ s = ATTR_ITEM_URL) :
    pyFind d2 (PyVal.str s) = pyFind d (PyVal.str s) := by
  unfold idPart at h
  obtain ⟨has, hc, h⟩ := bind_ok_cases _ _ _ h
  cases has
  · rw [if_neg (by simp)] at h
    rw [← Except.ok.inj h]
  · rw [if_pos rfl] at h
    obtain ⟨iid, hg, h⟩ := bind_ok_cases _ _ _ h
    rw [← Except.ok.inj h]
    rw [pyFind_dictSet_ne _ _ _ _ (pyEq_str_of_ne _ _ (Ne.symm h2)),
      pyFind_dictSet_ne _ _ _ _ (pyEq_str_of_ne _ _ (Ne.symm h1))]

theorem pricePart_preserve (item : PyVal) (d d2 : List (PyVal × PyVal))
    (s : String) (h : pricePart item d = Except.ok d2)
    (h1 : ¬ s = ATTR_PRICE) :
    pyFind d2 (PyVal.str s) = pyFind d (PyVal.str s) := by
  unfold pricePart at h
  obtain ⟨has, hc, h⟩ := bind_ok_cases _ _ _ h
  cases has
  · rw [if_neg (by simp)] at h
    rw [← Except.ok.inj h]
  · rw [if_pos rfl] at h
    obtain ⟨p, _, h⟩ := bind_ok_cases _ _ _ h
    obtain ⟨muv, _, h⟩ := bind_ok_cases _ _ _ h
    obtain ⟨mu, _, h⟩ := bind_ok_cases _ _ _ h
    obtain ⟨dev, _, h⟩ := bind_ok_cases _ _ _ h
    obtain ⟨de, _, h⟩ := bind_ok_cases _ _ _ h
    obtain ⟨cv, _, h⟩ := bind_ok_cases _ _ _ h
    obtain ⟨str2, _, h⟩ := bind_ok_cases _ _ _ h
    rw [← Except.ok.inj h]
    rw [pyFind_dictSet_ne _ _ _ _ (pyEq_str_of_ne _ _ (Ne.symm h1))]

theorem valuePart_preserve (item : PyVal) (d d2 : List (PyVal × PyVal))
    (s : String) (h : valuePart item d = Except.ok d2)
    (h1 : ¬ s = ATTR_VALUE) :
    pyFind d2 (PyVal.str s) = pyFind d (PyVal.str s) := by
  unfold valuePart at h
  obtain ⟨has, hc, h⟩ := bind_ok_cases _ _ _ h
  cases has
  · rw [if_neg (by simp)] at h
    rw [← Except.ok.inj h]
  · rw [if_pos rfl] at h
    obtain ⟨p, _, h⟩ := bind_ok_cases _ _ _ h
    obtain ⟨muv, _, h⟩ := bind_ok_cases _ _ _ h
    obtain ⟨mu, _, h⟩ := bind_ok_cases _ _ _ h
    obtain ⟨dev, _, h⟩ := bind_ok_cases _ _ _ h
    obtain ⟨de, _, h⟩ := bind_ok_cases _ _ _ h
    obtain ⟨cv, _, h⟩ := bind_ok_cases _ _ _ h
    obtain ⟨str2, _, h⟩ := bind_ok_cases _ _ _ h
    rw [← Except.ok.inj h]
    rw [pyFind_dictSet_ne _ _ _ _ (pyEq_str_of_ne _ _ (Ne.symm h1))]

theorem logoPart_preserve (item : PyVal) (d d2 : List (PyVal × PyVal))
    (s : String) (h : logoPart item d = Except.ok d2)
    (h1 : ¬ s = ATTR_LOGO_URL) :
    pyFind d2 (PyVal.str s) = pyFind d (PyVal.str s) := by
  unfold logoPart at h
  obtain ⟨has, hc, h⟩ := bind_ok_cases _ _ _ h
  cases has
  · rw [if_neg (by simp)] at h
    rw [← Except.ok.inj h]
  · rw [if_pos rfl] at h
    obtain ⟨lp, _, h⟩ := bind_ok_cases _ _ _ h
    obtain ⟨url, _, h⟩ := bind_ok_cases _ _ _ h
    rw [← Except.ok.inj h]
    rw [pyFind_dictSet_ne _ _ _ _ (pyEq_str_of_ne _ _ (Ne.symm h1))]

theorem coverPart_preserve (item : PyVal) (d d2 : List (PyVal × PyVal))
    (s : String) (h : coverPart item d = Except.ok d2)
    (h1 : ¬ s = ATTR_COVER_URL) :
    pyFind d2 (PyVal.str s) = pyFind d (PyVal.str s) := by
  unfold coverPart at h
  obtain ⟨has, hc, h⟩ := bind_ok_cases _ _ _ h
  cases has
  · rw [if_neg (by simp)] at h
    rw [← Except.ok.inj h]
  · rw [if_pos rfl] at h
    obtain ⟨cp, _, h⟩ := bind_ok_cases _ _ _ h
    obtain ⟨url, _, h⟩ := bind_ok_cases _ _ _ h
    rw [← Except.ok.inj h]
    rw [pyFind_dictSet_ne _ _ _ _ (pyEq_str_of_ne _ _ (Ne.symm h1))]

theorem itemAttrs_preserve (a : PyVal) (d d2 : List (PyVal × PyVal))
    (s : String) (h : itemAttrs a d = Except.ok d2)
    (h1 : ¬ s = ATTR_ITEM_ID) (h2 : ¬ s = ATTR_ITEM_URL)
    (h3 : ¬ s = ATTR_PRICE) (h4 : ¬ s = ATTR_VALUE)
    (h5 : ¬ s = ATTR_LOGO_URL) (h6 : ¬ s = ATTR_COVER_URL) :
    pyFind d2 (PyVal.str s) = pyFind d (PyVal.str s) := by
  unfold itemAttrs at h
  obtain ⟨has, hc, h⟩ := bind_ok_cases _ _ _ h
  cases has
  · rw [if_neg (by simp)] at h
    rw [← Except.ok.inj h]
  · rw [if_pos rfl] at h
    obtain ⟨item, _, h⟩ := bind_ok_cases _ _ _ h
    obtain ⟨e1, hp1, h⟩ := bind_ok_cases _ _ _ h
    obtain ⟨e2, hp2, h⟩ := bind_ok_cases _ _ _ h
    obtain ⟨e3, hp3, h⟩ := bind_ok_cases _ _ _ h
    obtain ⟨e4, hp4, h⟩ := bind_ok_cases _ _ _ h
    rw [coverPart_preserve _ _ _ _ h h6, logoPart_preserve _ _ _ _ hp4 h5,
      valuePart_preserve _ _ _ _ hp3 h4, pricePart_preserve _ _ _ _ hp2 h3,
      idPart_preserve _ _ _ _ hp1 h1 h2]

theorem startPart_preserve (itv : PyVal) (d d2 : List (PyVal × PyVal))
    (s : String) (h : startPart itv d = Except.ok d2)
    (h1 : ¬ s = ATTR_PICKUP_START) :
    pyFind d2 (PyVal.str s) = pyFind d (PyVal.str s) := by
  unfold startPart at h
  obtain ⟨hs, hc, h⟩ := bind_ok_cases _ _ _ h
  cases hs
  · rw [if_neg (by simp)] at h
    rw [← Except.ok.inj h]
  · rw [if_pos rfl] at h
    obtain ⟨v, _, h⟩ := bind_ok_cases _ _ _ h
    rw [← Except.ok.inj h]
    rw [pyFind_dictSet_ne _ _ _ _ (pyEq_str_of_ne _ _ (Ne.symm h1))]

theorem endPart_preserve (itv : PyVal) (d d2 : List (PyVal × PyVal))
    (s : String) (h : endPart itv d = Except.ok d2)
    (h1 : ¬ s = ATTR_PICKUP_END) :
    pyFind d2 (PyVal.str s) = pyFind d (PyVal.str s) := by
  unfold endPart at h
  obtain ⟨he, hc, h⟩ := bind_ok_cases _ _ _ h
  cases he
  · rw [if_neg (by simp)] at h
    rw [← Except.ok.inj h]
  · rw [if_pos rfl] at h
    obtain ⟨v, _, h⟩ := bind_ok_cases _ _ _ h
    rw [← Except.ok.inj h]
    rw [pyFind_dictSet_ne _ _ _ _ (pyEq_str_of_ne _ _ (Ne.symm h1))]

theorem pickupIntervalPart_preserve (a : PyVal) (d d2 : List (PyVal × PyVal))
    (s : String) (h : pickupIntervalPart a d = Except.ok d2)
    (h1 : ¬ s = ATTR_PICKUP_START) (h2 : ¬ s = ATTR_PICKUP_END) :
    pyFind d2 (PyVal.str s) = pyFind d (PyVal.str s) := by
  unfold pickupIntervalPart at h
  obtain ⟨has, hc, h⟩ := bind_ok_cases _ _ _ h
  cases has
  · rw [if_neg (by simp)] at h
    rw [← Except.ok.inj h]
  · rw [if_pos rfl] at h
    obtain ⟨itv, _, h⟩ := bind_ok_cases _ _ _ h
    obtain ⟨e1, hp1, h⟩ := bind_ok_cases _ _ _ h
    rw [endPart_preserve _ _ _ _ h h2, startPart_preserve _ _ _ _ hp1 h1]

theorem soldOutPart_preserve (a : PyVal) (d d2 : List (PyVal × PyVal))
    (s : String) (h : soldOutPart a d = Except.ok d2)
    (h1 : ¬ s = ATTR_SOLDOUT_TIMESTAMP) :
    pyFind d2 (PyVal.str s) = pyFind d (PyVal.str s) := by
  unfold soldOutPart at h
  obtain ⟨hso, hc, h⟩ := bind_ok_cases _ _ _ h
  cases hso
  · rw [if_neg (by simp)] at h
    rw [← Except.ok.inj h]
  · rw [if_pos rfl] at h
    obtain ⟨v, _, h⟩ := bind_ok_cases _ _ _ h
    rw [← Except.ok.inj h]
    rw [pyFind_dictSet_ne _ _ _ _ (pyEq_str_of_ne _ _ (Ne.symm h1))]

theorem pickupAttrs_preserve (a : PyVal) (d d2 : List (PyVal × PyVal))
    (s : String) (h : pickupAttrs a d = Except.ok d2)
    (h1 : ¬ s = ATTR_PICKUP_START) (h2 : ¬ s = ATTR_PICKUP_END)
    (h3 : ¬ s = ATTR_SOLDOUT_TIMESTAMP) :
    pyFind d2 (PyVal.str s) = pyFind d (PyVal.str s) := by
  unfold pickupAttrs at h
  obtain ⟨e1, hp1, h⟩ := bind_ok_cases _ _ _ h
  rw [soldOutPart_preserve _ _ _ _ h h3,
    pickupIntervalPart_preserve _ _ _ _ hp1 h1 h2]

theorem pwcStep_preserve (o : PyVal) (d d2 : List (PyVal × PyVal))
    (s : String) (h : pwcStep o d = Except.ok d2)
    (h1 : ¬ s = ATTR_PICKUP_WINDOW_CHANGED) :
    pyFind d2 (PyVal.str s) = pyFind d (PyVal.str s) := by
  unfold pwcStep at h
  obtain ⟨hw, hc, h⟩ := bind_ok_cases _ _ _ h
  cases hw
  · rw [if_neg (by simp)] at h
    rw [← Except.ok.inj h]
  · rw [if_pos rfl] at h
    obtain ⟨v, _, h⟩ := bind_ok_cases _ _ _ h
    rw [← Except.ok.inj h]
    rw [pyFind_dictSet_ne _ _ _ _ (pyEq_str_of_ne _ _ (Ne.symm h1))]

theorem cuStep_preserve (o : PyVal) (d d2 : List (PyVal × PyVal))
    (s : String) (h : cuStep o d = Except.ok d2)
    (h1 : ¬ s = ATTR_CANCEL_UNTIL) :
    pyFind d2 (PyVal.str s) = pyFind d (PyVal.str s) := by
  unfold cuStep at h
  obtain ⟨hcb, hc, h⟩ := bind_ok_cases _ _ _ h
  cases hcb
  · rw [if_neg (by simp)] at h
    rw [← Except.ok.inj h]
  · rw [if_pos rfl] at h
    obtain ⟨v, _, h⟩ := bind_ok_cases _ _ _ h
    rw [← Except.ok.inj h]
    rw [pyFind_dictSet_ne _ _ _ _ (pyEq_str_of_ne _ _ (Ne.symm h1))]

theorem ordersFold_preserve (sid : String) :
    ∀ (os : List PyVal) (d : List (PyVal × PyVal)) (p t : Int)
      (d2 : List (PyVal × PyVal)) (p2 t2 : Int) (s : String),
    ordersFold sid os d p t = Except.ok (d2, p2, t2) →
    ¬ s = ATTR_PICKUP_WINDOW_CHANGED → ¬ s = ATTR_CANCEL_UNTIL →
    pyFind d2 (PyVal.str s) = pyFind d (PyVal.str s) := by
  intro os
  induction os with
  | nil =>
      intro d p t d2 p2 t2 s h _ _
      rw [ordersFold] at h
      rw [← (Prod.mk.inj (Except.ok.inj h)).1]
  | cons o rest ih =>
      intro d p t d2 p2 t2 s h h1 h2
      rw [ordersFold] at h
      obtain ⟨hasId, hc, h⟩ := bind_ok_cases _ _ _ h
      cases hasId
      · rw [if_neg (by simp)] at h
        exact ih d p t d2 p2 t2 s h h1 h2
      · rw [if_pos rfl] at h
        obtain ⟨oid, hg, h⟩ := bind_ok_cases _ _ _ h
        by_cases heq : pyEq oid (PyVal.str sid) = true
        · rw [if_pos heq] at h
          obtain ⟨total2, hq, h⟩ := bind_ok_cases _ _ _ h
          obtain ⟨da, hw, h⟩ := bind_ok_cases _ _ _ h
          obtain ⟨db, hcu, h⟩ := bind_ok_cases _ _ _ h
          rw [ih db (p + 1) total2 d2 p2 t2 s h h1 h2,
            cuStep_preserve _ _ _ _ hcu h2, pwcStep_preserve _ _ _ _ hw h1]
        · rw [Bool.not_eq_true] at heq
          rw [if_neg (by simp [heq])] at h
          exact ih d p t d2 p2 t2 s h h1 h2

/-- Stage decomposition of a successful attribute derivation on a dict
snapshot. -/
theorem extraAttrsRaw_inv (es : List (PyVal × PyVal)) (itemId : PyVal)
    (attrs : List (PyVal × PyVal))
    (hok : extraAttrsRaw (PyVal.dict es) itemId = Except.ok attrs) :
    ∃ a d1 d2 os d3 placed total,
      pyGetItem (PyVal.dict es) itemId = Except.ok a ∧
      itemAttrs a [] = Except.ok d1 ∧
      pickupAttrs a d1 = Except.ok d2 ∧
      pyIter ((pyFind es (PyVal.str "orders")).getD (PyVal.list [])) =
        Except.ok os ∧
      ordersFold (pyStr itemId) os d2 0 0 = Except.ok (d3, placed, total) ∧
      attrs = (if total > 0 then
          dictSet (dictSet d3 (PyVal.str ATTR_ORDERS_PLACED) (PyVal.int placed))
            (PyVal.str ATTR_TOTAL_QUANTITY_ORDERED) (PyVal.int total)
        else dictSet d3 (PyVal.str ATTR_ORDERS_PLACED) (PyVal.int placed)) := by
  unfold extraAttrsRaw at hok
  obtain ⟨a, h1, hok⟩ := bind_ok_cases _ _ _ hok
  obtain ⟨orders, h2, hok⟩ := bind_ok_cases _ _ _ hok
  obtain ⟨d1, h3, hok⟩ := bind_ok_cases _ _ _ hok
  obtain ⟨d2, h4, hok⟩ := bind_ok_cases _ _ _ hok
  obtain ⟨os, h5, hok⟩ := bind_ok_cases _ _ _ hok
  obtain ⟨res, h6, hok⟩ := bind_ok_cases _ _ _ hok
  obtain ⟨d3, placed, total⟩ := res
  refine ⟨a, d1, d2, os, d3, placed, total, h1, h3, h4, ?_, h6, ?_⟩
  · rw [pyDictGetE_dict] at h2
    rw [← Except.ok.inj h2] at h5
    exact h5
  · exact (Except.ok.inj hok).symm

/-- Forward computation of the price block when all its fields are present
and well-typed. -/
theorem pricePart_sets (item p muv dev : PyVal) (mu de : Int) (c : String)
    (d : List (PyVal × PyVal))
    (hc : pyContains "item_price" item = Except.ok true)
    (hp : pyGetItem item (PyVal.str "item_price") = Except.ok p)
    (hmu : pyGetItem p (PyVal.str "minor_units") = Except.ok muv)
    (hmu2 : pyInt muv = Except.ok mu)
    (hde : pyGetItem p (PyVal.str "decimals") = Except.ok dev)
    (hde2 : pyInt dev = Except.ok de)
    (hcode : pyGetItem p (PyVal.str "code") = Except.ok (PyVal.str c)) :
    pricePart item d = Except.ok
      (dictSet d (PyVal.str ATTR_PRICE)
        (PyVal.str (divStr mu de ++ " " ++ c))) := by
  simp [pricePart, hc, hp, hmu, hmu2, hde, hde2, hcode, pyAddStr,
    String.append_assoc]

/-- Forward computation of the original-value block (same transform as the
price). -/
theorem valuePart_sets (item p muv dev : PyVal) (mu de : Int) (c : String)
    (d : List (PyVal × PyVal))
    (hc : pyContains "item_value" item = Except.ok true)
    (hp : pyGetItem item (PyVal.str "item_value") = Except.ok p)
    (hmu : pyGetItem p (PyVal.str "minor_units") = Except.ok muv)
    (hmu2 : pyInt muv = Except.ok mu)
    (hde : pyGetItem p (PyVal.str "decimals") = Except.ok dev)
    (hde2 : pyInt dev = Except.ok de)
    (hcode : pyGetItem p (PyVal.str "code") = Except.ok (PyVal.str c)) :
    valuePart item d = Except.ok
      (dictSet d (PyVal.str ATTR_VALUE)
        (PyVal.str (divStr mu de ++ " " ++ c))) := by
  simp [valuePart, hc, hp, hmu, hmu2, hde, hde2, hcode, pyAddStr,
    String.append_assoc]

/-- Stage decomposition of a successful `itemAttrs` when the `item` key is
present. -/
theorem itemAttrs_inv (a it : PyVal) (d dfinal : List (PyVal × PyVal))
    (h2 : pyContains "item" a = Except.ok true)
    (h3 : pyGetItem a (PyVal.str "item") = Except.ok it)
    (hrun : itemAttrs a d = Except.ok dfinal) :
    ∃ d1 d2 d3 d4,
      idPart it d = Except.ok d1 ∧ pricePart it d1 = Except.ok d2 ∧
      valuePart it d2 = Except.ok d3 ∧ logoPart it d3 = Except.ok d4 ∧
      coverPart it d4 = Except.ok dfinal := by
  unfold itemAttrs at hrun
  rw [h2] at hrun
  simp only [bindE_ok] at hrun
  rw [if_pos trivial, h3] at hrun
  simp only [bindE_ok] at hrun
  obtain ⟨d1, hp1, hrun⟩ := bind_ok_cases _ _ _ hrun
  obtain ⟨d2, hp2, hrun⟩ := bind_ok_cases _ _ _ hrun
  obtain ⟨d3, hp3, hrun⟩ := bind_ok_cases _ _ _ hrun
  obtain ⟨d4, hp4, hrun⟩ := bind_ok_cases _ _ _ hrun
  exact ⟨d1, d2, d3, d4, hp1, hp2, hp3, hp4, hrun⟩

/-- C4: for every listing payload whose `item.item_price` has
integer-convertible `minor_units` and `decimals` and a string `code`, a
normally-completing attribute derivation binds the price attribute to the
string form of `minor_units / 10^decimals` followed by a space and the
currency code — and the `item.item_value` attribute applies the same
transform. -/
theorem C4_price_format (es : List (PyVal × PyVal))
    (itemId a it p muv dev : PyVal) (mu de : Int) (c : String)
    (attrs : List (PyVal × PyVal))
    (h1 : pyGetItem (PyVal.dict es) itemId = Except.ok a)
    (h2 : pyContains "item" a = Except.ok true)
    (h3 : pyGetItem a (PyVal.str "item") = Except.ok it)
    (h4 : pyContains "item_price" it = Except.ok true)
    (h5 : pyGetItem it (PyVal.str "item_price") = Except.ok p)
    (h6 : pyGetItem p (PyVal.str "minor_units") = Except.ok muv)
    (h7 : pyInt muv = Except.ok mu)
    (h8 : pyGetItem p (PyVal.str "decimals") = Except.ok dev)
    (h9 : pyInt dev = Except.ok de)
    (h10 : pyGetItem p (PyVal.str "code") = Except.ok (PyVal.str c))
    (hok : extraAttrsRaw (PyVal.dict es) itemId = Except.ok attrs) :
    pyFind attrs (PyVal.str ATTR_PRICE) =
      some (PyVal.str (divStr mu de ++ " " ++ c)) ∧
    (∀ (q qmv qdv : PyVal) (qmu qde : Int) (qc : String),
      pyContains "item_value" it = Except.ok true →
      pyGetItem it (PyVal.str "item_value") = Except.ok q →
      pyGetItem q (PyVal.str "minor_units") = Except.ok qmv →
      pyInt qmv = Except.ok qmu →
      pyGetItem q (PyVal.str "decimals") = Except.ok qdv →
      pyInt qdv = Except.ok qde →
      pyGetItem q (PyVal.str "code") = Except.ok (PyVal.str qc) →
      pyFind attrs (PyVal.str ATTR_VALUE) =
        some (PyVal.str (divStr qmu qde ++ " " ++ qc))) := by
  obtain ⟨a2, d1, d2, os, d3, placed, total, g1, g2, g3, g4, g5, g6⟩ :=
    extraAttrsRaw_inv es itemId attrs hok
  have ha : a2 = a := Except.ok.inj (g1.symm.trans h1)
  rw [ha] at g2 g3
  obtain ⟨q1, q2, q3, q4, hp1, hp2, hp3, hp4, hp5⟩ :=
    itemAttrs_inv a it [] d1 h2 h3 g2
  have hfoldP := ordersFold_preserve (pyStr itemId) os d2 0 0 d3 placed total
    ATTR_PRICE g5 (by decide) (by decide)
  have hpkP := pickupAttrs_preserve a d1 d2 ATTR_PRICE g3
    (by decide) (by decide) (by decide)
  have hfoldV := ordersFold_preserve (pyStr itemId) os d2 0 0 d3 placed total
    ATTR_VALUE g5 (by decide) (by decide)
  have hpkV := pickupAttrs_preserve a d1 d2 ATTR_VALUE g3
    (by decide) (by decide) (by decide)
  constructor
  · have hpr := pricePart_sets it p muv dev mu de c q1 h4 h5 h6 h7 h8 h9 h10
    have hq2 : q2 = dictSet q1 (PyVal.str ATTR_PRICE)
        (PyVal.str (divStr mu de ++ " " ++ c)) :=
      Except.ok.inj (hp2.symm.trans hpr)
    by_cases htot : total > 0
    · rw [g6, if_pos htot,
        pyFind_dictSet_ne _ _ _ _ (pyEq_str_of_ne _ _ (by decide)),
        pyFind_dictSet_ne _ _ _ _ (pyEq_str_of_ne _ _ (by decide)),
        hfoldP, hpkP, coverPart_preserve _ _ _ _ hp5 (by decide),
        logoPart_preserve _ _ _ _ hp4 (by decide),
        valuePart_preserve _ _ _ _ hp3 (by decide),
        hq2, pyFind_dictSet_self]
    · rw [g6, if_neg htot,
        pyFind_dictSet_ne _ _ _ _ (pyEq_str_of_ne _ _ (by decide)),
        hfoldP, hpkP, coverPart_preserve _ _ _ _ hp5 (by decide),
        logoPart_preserve _ _ _ _ hp4 (by decide),
        valuePart_preserve _ _ _ _ hp3 (by decide),
        hq2, pyFind_dictSet_self]
  · intro q qmv qdv qmu qde qc v1 v2 v3 v4 v5 v6 v7
    have hvl := valuePart_sets it q qmv qdv qmu qde qc q2 v1 v2 v3 v4 v5 v6 v7
    have hq3 : q3 = dictSet q2 (PyVal.str ATTR_VALUE)
        (PyVal.str (divStr qmu qde ++ " " ++ qc)) :=
      Except.ok.inj (hp3.symm.trans hvl)
    by_cases htot : total > 0
    · rw [g6, if_pos htot,
        pyFind_dictSet_ne _ _ _ _ (pyEq_str_of_ne _ _ (by decide)),
        pyFind_dictSet_ne _ _ _ _ (pyEq_str_of_ne _ _ (by decide)),
        hfoldV, hpkV, coverPart_preserve _ _ _ _ hp5 (by decide),
        logoPart_preserve _ _ _ _ hp4 (by decide),
        hq3, pyFind_dictSet_self]
    · rw [g6, if_neg htot,
        pyFind_dictSet_ne _ _ _ _ (pyEq_str_of_ne _ _ (by decide)),
        hfoldV, hpkV, coverPart_preserve _ _ _ _ hp5 (by decide),
        logoPart_preserve _ _ _ _ hp4 (by decide),
        hq3, pyFind_dictSet_self]

/-- C4 instantiated with the spec's example: `{minor_units: 250, decimals:
2, code: "EUR"}` yields the price string `"2.5 EUR"`, and an `item_value`
of `{500, 2, "EUR"}` yields `"5.0 EUR"` by the same transform. -/
theorem C4_witness :
    pyFind [(PyVal.str "item_price", PyVal.str "2.5 EUR"),
        (PyVal.str "original_value", PyVal.str "5.0 EUR"),
        (PyVal.str "orders_placed", PyVal.int 0)]
      (PyVal.str ATTR_PRICE) = some (PyVal.str "2.5 EUR") ∧
    pyFind [(PyVal.str "item_price", PyVal.str "2.5 EUR"),
        (PyVal.str "original_value", PyVal.str "5.0 EUR"),
        (PyVal.str "orders_placed", PyVal.int 0)]
      (PyVal.str ATTR_VALUE) = some (PyVal.str "5.0 EUR") := by
  have h := C4_price_format
    [(PyVal.str "x", PyVal.dict [(PyVal.str "item", PyVal.dict
      [(PyVal.str "item_price", PyVal.dict
        [(PyVal.str "minor_units", PyVal.int 250),
         (PyVal.str "decimals", PyVal.int 2),
         (PyVal.str "code", PyVal.str "EUR")]),
       (PyVal.str "item_value", PyVal.dict
        [(PyVal.str "minor_units", PyVal.int 500),
         (PyVal.str "decimals", PyVal.int 2),
         (PyVal.str "code", PyVal.str "EUR")])])])]
    (PyVal.str "x")
    (PyVal.dict [(PyVal.str "item", PyVal.dict
      [(PyVal.str "item_price", PyVal.dict
        [(PyVal.str "minor_units", PyVal.int 250),
         (PyVal.str "decimals", PyVal.int 2),
         (PyVal.str "code", PyVal.str "EUR")]),
       (PyVal.str "item_value", PyVal.dict
        [(PyVal.str "minor_units", PyVal.int 500),
         (PyVal.str "decimals", PyVal.int 2),
         (PyVal.str "code", PyVal.str "EUR")])])])
    (PyVal.dict
      [(PyVal.str "item_price", PyVal.dict
        [(PyVal.str "minor_units", PyVal.int 250),
         (PyVal.str "decimals", PyVal.int 2),
         (PyVal.str "code", PyVal.str "EUR")]),
       (PyVal.str "item_value", PyVal.dict
        [(PyVal.str "minor_units", PyVal.int 500),
         (PyVal.str "decimals", PyVal.int 2),
         (PyVal.str "code", PyVal.str "EUR")])])
    (PyVal.dict
      [(PyVal.str "minor_units", PyVal.int 250),
       (PyVal.str "decimals", PyVal.int 2),
       (PyVal.str "code", PyVal.str "EUR")])
    (PyVal.int 250) (PyVal.int 2) 250 2 "EUR"
    [(PyVal.str "item_price", PyVal.str "2.5 EUR"),
     (PyVal.str "original_value", PyVal.str "5.0 EUR"),
     (PyVal.str "orders_placed", PyVal.int 0)]
    rfl rfl rfl rfl rfl rfl rfl rfl rfl rfl rfl
  exact ⟨h.1, h.2 (PyVal.dict
      [(PyVal.str "minor_units", PyVal.int 500),
       (PyVal.str "decimals", PyVal.int 2),
       (PyVal.str "code", PyVal.str "EUR")])
    (PyVal.int 500) (PyVal.int 2) 500 2 "EUR" rfl rfl rfl rfl rfl rfl rfl⟩

/-- The `pickup_window_changed` step always succeeds on a dict order. -/
theorem pwcStep_dict_ok (fs d : List (PyVal × PyVal)) :
    ∃ d2, pwcStep (PyVal.dict fs) d = Except.ok d2 := by
  unfold pwcStep
  cases hb : (fs.any fun e => pyEq e.1 (PyVal.str "pickup_window_changed")) with
  | false =>
      refine ⟨d, ?_⟩
      simp only [pyContains, hb, bindE_ok]
      rw [if_neg (by simp)]
      rfl
  | true =>
      obtain ⟨v, hv⟩ := (any_iff_pyFind fs "pickup_window_changed").mp hb
      refine ⟨dictSet d (PyVal.str ATTR_PICKUP_WINDOW_CHANGED) v, ?_⟩
      simp only [pyContains, hb, bindE_ok]
      rw [if_pos trivial]
      simp [pyGetItem, hv]

/-- The `cancel_until` step always succeeds on a dict order. -/
theorem cuStep_dict_ok (fs d : List (PyVal × PyVal)) :
    ∃ d2, cuStep (PyVal.dict fs) d = Except.ok d2 := by
  unfold cuStep
  cases hb : (fs.any fun e => pyEq e.1 (PyVal.str "cancel_until")) with
  | false =>
      refine ⟨d, ?_⟩
      simp only [pyContains, hb, bindE_ok]
      rw [if_neg (by simp)]
      rfl
  | true =>
      obtain ⟨v, hv⟩ := (any_iff_pyFind fs "cancel_until").mp hb
      refine ⟨dictSet d (PyVal.str ATTR_CANCEL_UNTIL) v, ?_⟩
      simp only [pyContains, hb, bindE_ok]
      rw [if_pos trivial]
      simp [pyGetItem, hv]

/-- The quantity step on a dict order whose `quantity` field (if present)
is an int adds exactly that order's specification-side quantity. -/
theorem quantityStep_dict (fs : List (PyVal × PyVal)) (t : Int)
    (hq : ∀ q, pyFind fs (PyVal.str "quantity") = some q →
      ∃ n, q = PyVal.int n) :
    quantityStep (PyVal.dict fs) t =
      Except.ok (t + orderQty (PyVal.dict fs)) := by
  unfold quantityStep
  cases hfq : pyFind fs (PyVal.str "quantity") with
  | none =>
      have hb : (fs.any fun e => pyEq e.1 (PyVal.str "quantity")) = false := by
        rw [← Bool.not_eq_true]
        intro hx
        obtain ⟨w, hw⟩ := (any_iff_pyFind fs "quantity").mp hx
        rw [hw] at hfq
        exact Option.noConfusion hfq
      simp only [pyContains, hb, bindE_ok]
      rw [if_neg (by simp)]
      simp [orderQty, hfq]
  | some q =>
      obtain ⟨n, rfl⟩ := hq q hfq
      have hb : (fs.any fun e => pyEq e.1 (PyVal.str "quantity")) = true :=
        (any_iff_pyFind fs "quantity").mpr ⟨PyVal.int n, hfq⟩
      simp only [pyContains, hb, bindE_ok]
      rw [if_pos trivial]
      simp [pyGetItem, hfq, pyAddInt, orderQty]

/-- The orders loop on well-shaped orders (each a dict whose `quantity`
field, when present, is an int) succeeds and adds the specification-side
count and quantity sum to the running accumulators. -/
theorem ordersFold_spec (sid : String) :
    ∀ (os : List PyVal) (d : List (PyVal × PyVal)) (p t : Int),
    (∀ o ∈ os, ∃ fs, o = PyVal.dict fs ∧
      (∀ q, pyFind fs (PyVal.str "quantity") = some q →
        ∃ n, q = PyVal.int n)) →
    ∃ d2, ordersFold sid os d p t =
      Except.ok (d2, p + ordersPlacedSpec sid os, t + totalQtySpec sid os) := by
  intro os
  induction os with
  | nil =>
      intro d p t _
      exact ⟨d, by simp [ordersFold, ordersPlacedSpec, totalQtySpec]⟩
  | cons o rest ih =>
      intro d p t hshape
      obtain ⟨fs, rfl, hq⟩ := hshape _ (List.mem_cons_self _ rest)
      have hrest := fun o2 ho2 => hshape o2 (List.mem_cons_of_mem _ ho2)
      cases hfind : pyFind fs (PyVal.str "item_id") with
      | none =>
          have hany : (fs.any fun e => pyEq e.1 (PyVal.str "item_id")) = false := by
            rw [← Bool.not_eq_true]
            intro hx
            obtain ⟨w, hw⟩ := (any_iff_pyFind fs "item_id").mp hx
            rw [hw] at hfind
            exact Option.noConfusion hfind
          have hm : orderMatches sid (PyVal.dict fs) = false := by
            simp [orderMatches, hfind]
          obtain ⟨d2, hIH⟩ := ih d p t hrest
          refine ⟨d2, ?_⟩
          rw [ordersFold]
          simp only [pyContains, hany, bindE_ok]
          rw [if_neg (by simp), hIH]
          simp [ordersPlacedSpec, totalQtySpec, List.filter_cons, hm]
      | some v =>
          have hany : (fs.any fun e => pyEq e.1 (PyVal.str "item_id")) = true :=
            (any_iff_pyFind fs "item_id").mpr ⟨v, hfind⟩
          have hget : pyGetItem (PyVal.dict fs) (PyVal.str "item_id") =
              Except.ok v := by simp [pyGetItem, hfind]
          by_cases hm : pyEq v (PyVal.str sid) = true
          · have hmatch : orderMatches sid (PyVal.dict fs) = true := by
              simp [orderMatches, hfind, hm]
            obtain ⟨da, hwa⟩ := pwcStep_dict_ok fs d
            obtain ⟨db, hwb⟩ := cuStep_dict_ok fs da
            obtain ⟨d2, hIH⟩ :=
              ih db (p + 1) (t + orderQty (PyVal.dict fs)) hrest
            refine ⟨d2, ?_⟩
            rw [ordersFold]
            simp only [pyContains, hany, bindE_ok]
            rw [if_pos trivial, hget]
            simp only [bindE_ok]
            rw [if_pos hm, quantityStep_dict fs t hq]
            simp only [bindE_ok]
            rw [hwa]
            simp only [bindE_ok]
            rw [hwb]
            simp only [bindE_ok]
            rw [hIH]
            simp only [Except.ok.injEq, Prod.mk.injEq, ordersPlacedSpec,
              totalQtySpec, List.filter_cons, hmatch, if_pos, List.length_cons,
              List.map_cons, List.sum_cons]
            refine ⟨trivial, ?_, ?_⟩
            · push_cast
              omega
            · omega
          · rw [Bool.not_eq_true] at hm
            have hmatch : orderMatches sid (PyVal.dict fs) = false := by
              simp [orderMatches, hfind, hm]
            obtain ⟨d2, hIH⟩ := ih d p t hrest
            refine ⟨d2, ?_⟩
            rw [ordersFold]
            simp only [pyContains, hany, bindE_ok]
            rw [if_pos trivial, hget]
            simp only [bindE_ok]
            rw [if_neg (by simp [hm]), hIH]
            simp [ordersPlacedSpec, totalQtySpec, List.filter_cons, hmatch]

/-- C5: for a snapshot whose `"orders"` entry is a list of well-shaped
order records, a normally-completing attribute derivation reports
orders-placed equal to the count of orders whose `item_id` string-equals
the sensor's identifier, and includes the total quantity ordered (the sum
of their `quantity` fields) exactly when that sum is strictly positive. -/
theorem C5_orders_aggregation (es : List (PyVal × PyVal)) (sid : String)
    (os : List PyVal) (attrs : List (PyVal × PyVal))
    (horders : pyFind es (PyVal.str "orders") = some (PyVal.list os))
    (hshape : ∀ o ∈ os, ∃ fs, o = PyVal.dict fs ∧
      (∀ q, pyFind fs (PyVal.str "quantity") = some q → ∃ n, q = PyVal.int n))
    (hok : extraAttrsRaw (PyVal.dict es) (PyVal.str sid) = Except.ok attrs) :
    pyFind attrs (PyVal.str ATTR_ORDERS_PLACED) =
      some (PyVal.int (ordersPlacedSpec sid os)) ∧
    (0 < totalQtySpec sid os →
      pyFind attrs (PyVal.str ATTR_TOTAL_QUANTITY_ORDERED) =
        some (PyVal.int (totalQtySpec sid os))) ∧
    (totalQtySpec sid os ≤ 0 →
      pyFind attrs (PyVal.str ATTR_TOTAL_QUANTITY_ORDERED) = Option.none) := by
  obtain ⟨a, d1, d2, os2, d3, placed, total, g1, g2, g3, g4, g5, g6⟩ :=
    extraAttrsRaw_inv es (PyVal.str sid) attrs hok
  rw [horders] at g4
  have hos : os2 = os := (Except.ok.inj g4).symm
  rw [hos] at g5
  rw [show pyStr (PyVal.str sid) = sid from rfl] at g5
  obtain ⟨dS, hspec⟩ := ordersFold_spec sid os d2 0 0 hshape
  have h3 := Except.ok.inj (g5.symm.trans hspec)
  simp only [Prod.mk.injEq] at h3
  obtain ⟨hd3, hpl, hto⟩ := h3
  rw [zero_add] at hpl hto
  refine ⟨?_, ?_, ?_⟩
  · by_cases htot : total > 0
    · rw [g6, if_pos htot,
        pyFind_dictSet_ne _ _ _ _ (pyEq_str_of_ne _ _ (by decide)),
        pyFind_dictSet_self, hpl]
    · rw [g6, if_neg htot, pyFind_dictSet_self, hpl]
  · intro hpos
    have htot : total > 0 := by rw [hto]; exact hpos
    rw [g6, if_pos htot, pyFind_dictSet_self, hto]
  · intro hle
    have htot : ¬ total > 0 := by rw [hto]; omega
    rw [g6, if_neg htot,
      pyFind_dictSet_ne _ _ _ _ (pyEq_str_of_ne _ _ (by decide)),
      ordersFold_preserve sid os d2 0 0 d3 placed total
        ATTR_TOTAL_QUANTITY_ORDERED g5 (by decide) (by decide),
      pickupAttrs_preserve a d1 d2 ATTR_TOTAL_QUANTITY_ORDERED g3
        (by decide) (by decide) (by decide),
      itemAttrs_preserve a [] d1 ATTR_TOTAL_QUANTITY_ORDERED g2
        (by decide) (by decide) (by decide) (by decide) (by decide) (by decide)]
    rfl

/-- C5 instantiated with the spec's example: orders
`[{item_id:"42", quantity:2}, {item_id:"42", quantity:1},
{item_id:"7", quantity:5}]`; the sensor bound to `"42"` reports
orders-placed 2 and total-quantity 3, the sensor bound to `"99"` reports
orders-placed 0 with no total-quantity attribute. -/
theorem C5_witness :
    pyFind [(PyVal.str "orders_placed", PyVal.int 2),
        (PyVal.str "total_quantity_ordered", PyVal.int 3)]
      (PyVal.str ATTR_ORDERS_PLACED) = some (PyVal.int 2) ∧
    pyFind [(PyVal.str "orders_placed", PyVal.int 2),
        (PyVal.str "total_quantity_ordered", PyVal.int 3)]
      (PyVal.str ATTR_TOTAL_QUANTITY_ORDERED) = some (PyVal.int 3) ∧
    pyFind [(PyVal.str "orders_placed", PyVal.int 0)]
      (PyVal.str ATTR_ORDERS_PLACED) = some (PyVal.int 0) ∧
    pyFind [(PyVal.str "orders_placed", PyVal.int 0)]
      (PyVal.str ATTR_TOTAL_QUANTITY_ORDERED) = Option.none := by
  have hshape : ∀ o ∈ [PyVal.dict [(PyVal.str "item_id", PyVal.str "42"),
        (PyVal.str "quantity", PyVal.int 2)],
      PyVal.dict [(PyVal.str "item_id", PyVal.str "42"),
        (PyVal.str "quantity", PyVal.int 1)],
      PyVal.dict [(PyVal.str "item_id", PyVal.str "7"),
        (PyVal.str "quantity", PyVal.int 5)]],
      ∃ fs, o = PyVal.dict fs ∧
        (∀ q, pyFind fs (PyVal.str "quantity") = some q →
          ∃ n, q = PyVal.int n) := by
    intro o ho
    simp only [List.mem_cons, List.not_mem_nil, or_false] at ho
    rcases ho with rfl | rfl | rfl
    · exact ⟨_, rfl, fun q hq => ⟨2, by rw [← Option.some.inj hq]⟩⟩
    · exact ⟨_, rfl, fun q hq => ⟨1, by rw [← Option.some.inj hq]⟩⟩
    · exact ⟨_, rfl, fun q hq => ⟨5, by rw [← Option.some.inj hq]⟩⟩
  have h42 := C5_orders_aggregation
    [(PyVal.str "orders", PyVal.list
      [PyVal.dict [(PyVal.str "item_id", PyVal.str "42"),
        (PyVal.str "quantity", PyVal.int 2)],
       PyVal.dict [(PyVal.str "item_id", PyVal.str "42"),
        (PyVal.str "quantity", PyVal.int 1)],
       PyVal.dict [(PyVal.str "item_id", PyVal.str "7"),
        (PyVal.str "quantity", PyVal.int 5)]]),
     (PyVal.str "42", PyVal.dict []), (PyVal.str "99", PyVal.dict [])]
    "42" _ _ rfl hshape rfl
  have h99 := C5_orders_aggregation
    [(PyVal.str "orders", PyVal.list
      [PyVal.dict [(PyVal.str "item_id", PyVal.str "42"),
        (PyVal.str "quantity", PyVal.int 2)],
       PyVal.dict [(PyVal.str "item_id", PyVal.str "42"),
        (PyVal.str "quantity", PyVal.int 1)],
       PyVal.dict [(PyVal.str "item_id", PyVal.str "7"),
        (PyVal.str "quantity", PyVal.int 5)]]),
     (PyVal.str "42", PyVal.dict []), (PyVal.str "99", PyVal.dict [])]
    "99" _ _ rfl hshape rfl
  exact ⟨h42.1, h42.2.1 (by decide), h99.1, h99.2.2 (by decide)⟩

/-- C10: the claim says that on every snapshot the coordinator actually
produces, every sensor's projection reports `orders_placed = 0` and
succeeds without error.  Counterexample with two coordinator-produced
snapshots: (a) a listing payload of the wrong type makes the projection
return the empty attribute dict, which contains no `orders_placed`
attribute at all; (b) a listing payload with a non-numeric price string
makes the projection raise `ValueError` rather than succeed. -/
theorem C10_counterexample :
    (update_data (fun _ => Except.ok (PyVal.int 5)) (Except.ok []) ["x"] =
      Except.ok (PyVal.dict [(PyVal.str "orders", PyVal.str ""),
        (PyVal.str "x", PyVal.int 5)]) ∧
     extra_state_attributes
       (PyVal.dict [(PyVal.str "orders", PyVal.str ""),
         (PyVal.str "x", PyVal.int 5)]) (PyVal.str "x") =
       Except.ok (PyVal.dict []) ∧
     pyFind ([] : List (PyVal × PyVal)) (PyVal.str ATTR_ORDERS_PLACED) =
       Option.none) ∧
    (update_data (fun _ => Except.ok (PyVal.dict [(PyVal.str "item",
        PyVal.dict [(PyVal.str "item_price",
          PyVal.dict [(PyVal.str "minor_units", PyVal.str "abc")])])]))
      (Except.ok []) ["y"] =
      Except.ok (PyVal.dict [(PyVal.str "orders", PyVal.str ""),
        (PyVal.str "y", PyVal.dict [(PyVal.str "item",
          PyVal.dict [(PyVal.str "item_price",
            PyVal.dict [(PyVal.str "minor_units", PyVal.str "abc")])])])]) ∧
     extra_state_attributes
       (PyVal.dict [(PyVal.str "orders", PyVal.str ""),
         (PyVal.str "y", PyVal.dict [(PyVal.str "item",
           PyVal.dict [(PyVal.str "item_price",
             PyVal.dict [(PyVal.str "minor_units", PyVal.str "abc")])])])])
       (PyVal.str "y") = Except.error PyErr.valueError) :=
  ⟨⟨rfl, rfl, rfl⟩, rfl, rfl⟩

/-- C10 (amended): on every snapshot whose `"orders"` entry is the empty
string placeholder (as all non-colliding coordinator snapshots are), no
sensor's attribute projection ever yields `total_quantity_ordered`,
`pickup_window_changed` or `cancel_until` — iterating the empty string
yields no orders — and whenever the projection returns an attribute set at
all, that set either is empty (an error was caught) or carries
`orders_placed = 0`. -/
theorem C10_empty_orders (es : List (PyVal × PyVal)) (itemId : PyVal)
    (attrs : List (PyVal × PyVal))
    (horders : pyFind es (PyVal.str "orders") = some (PyVal.str ""))
    (hok : extra_state_attributes (PyVal.dict es) itemId =
      Except.ok (PyVal.dict attrs)) :
    pyFind attrs (PyVal.str ATTR_TOTAL_QUANTITY_ORDERED) = Option.none ∧
    pyFind attrs (PyVal.str ATTR_PICKUP_WINDOW_CHANGED) = Option.none ∧
    pyFind attrs (PyVal.str ATTR_CANCEL_UNTIL) = Option.none ∧
    (attrs = [] ∨ pyFind attrs (PyVal.str ATTR_ORDERS_PLACED) =
      some (PyVal.int 0)) := by
  unfold extra_state_attributes at hok
  cases hr : extraAttrsRaw (PyVal.dict es) itemId with
  | error e =>
      rw [hr] at hok
      cases e <;> simp only at hok <;>
        first
          | (have ha : attrs = [] := by
              have := Except.ok.inj hok
              exact (PyVal.dict.inj this).symm
             rw [ha]
             exact ⟨rfl, rfl, rfl, Or.inl rfl⟩)
          | exact absurd hok (by simp)
  | ok d =>
      rw [hr] at hok
      dsimp only at hok
      have had : attrs = d := (PyVal.dict.inj (Except.ok.inj hok)).symm
      obtain ⟨a, d1, d2, os2, d3, placed, total, g1, g2, g3, g4, g5, g6⟩ :=
        extraAttrsRaw_inv es itemId d hr
      rw [horders] at g4
      have hos : os2 = [] := (Except.ok.inj g4).symm
      rw [hos, ordersFold] at g5
      have h5 := Except.ok.inj g5
      simp only [Prod.mk.injEq] at h5
      obtain ⟨hd3, hpl, hto⟩ := h5
      have hattrs : attrs = dictSet d3 (PyVal.str ATTR_ORDERS_PLACED)
          (PyVal.int placed) := by
        rw [had, g6, if_neg (by omega)]
      have hnone : ∀ s : String, ¬ s = ATTR_ITEM_ID → ¬ s = ATTR_ITEM_URL →
          ¬ s = ATTR_PRICE → ¬ s = ATTR_VALUE → ¬ s = ATTR_LOGO_URL →
          ¬ s = ATTR_COVER_URL → ¬ s = ATTR_PICKUP_START →
          ¬ s = ATTR_PICKUP_END → ¬ s = ATTR_SOLDOUT_TIMESTAMP →
          ¬ s = ATTR_ORDERS_PLACED →
          pyFind attrs (PyVal.str s) = Option.none := by
        intro s n1 n2 n3 n4 n5 n6 n7 n8 n9 n10
        rw [hattrs, pyFind_dictSet_ne _ _ _ _ (pyEq_str_of_ne _ _
            (fun hx => n10 hx.symm)), ← hd3,
          pickupAttrs_preserve a d1 d2 s g3 n7 n8 n9,
          itemAttrs_preserve a [] d1 s g2 n1 n2 n3 n4 n5 n6]
        rfl
      refine ⟨?_, ?_, ?_, Or.inr ?_⟩
      · exact hnone ATTR_TOTAL_QUANTITY_ORDERED (by decide) (by decide)
          (by decide) (by decide) (by decide) (by decide) (by decide)
          (by decide) (by decide) (by decide)
      · exact hnone ATTR_PICKUP_WINDOW_CHANGED (by decide) (by decide)
          (by decide) (by decide) (by decide) (by decide) (by decide)
          (by decide) (by decide) (by decide)
      · exact hnone ATTR_CANCEL_UNTIL (by decide) (by decide)
          (by decide) (by decide) (by decide) (by decide) (by decide)
          (by decide) (by decide) (by decide)
      · rw [hattrs, pyFind_dictSet_self, hpl]

/-- C10 amended claim instantiated: a snapshot with the `""` orders
placeholder and an empty-dict listing; the projection carries
`orders_placed = 0` and none of the order-derived attributes. -/
theorem C10_witness :
    pyFind [(PyVal.str "orders_placed", PyVal.int 0)]
      (PyVal.str ATTR_TOTAL_QUANTITY_ORDERED) = Option.none ∧
    pyFind [(PyVal.str "orders_placed", PyVal.int 0)]
      (PyVal.str ATTR_PICKUP_WINDOW_CHANGED) = Option.none ∧
    pyFind [(PyVal.str "orders_placed", PyVal.int 0)]
      (PyVal.str ATTR_CANCEL_UNTIL) = Option.none ∧
    ([(PyVal.str "orders_placed", PyVal.int 0)] =
        ([] : List (PyVal × PyVal)) ∨
      pyFind [(PyVal.str "orders_placed", PyVal.int 0)]
        (PyVal.str ATTR_ORDERS_PLACED) = some (PyVal.int 0)) :=
  C10_empty_orders
    [(PyVal.str "orders", PyVal.str ""), (PyVal.str "x", PyVal.dict [])]
    (PyVal.str "x") [(PyVal.str "orders_placed", PyVal.int 0)] rfl rfl
